import Mathlib

set_option autoImplicit false

/-!
Verification development for the CareerPath repository: a React client
(`src/client`), a Node auth/upload service (`src/server`) and a Python
workflow-orchestration engine (documented in `src/python-server/README.md`
and in the specification).  The client data model and the zustand
simulation store are embedded directly from the TypeScript source
(`src/client/src/lib/api.ts` and the store module).  The orchestration
engine itself is not part of the shipped sources, so its state model,
scheduler, retry policy and session layer are modelled from the
specification, as marked on each definition.
-/

/-! ## Data model from `src/client/src/lib/api.ts` -/

/-- From `api.ts` interface `LanguageProficiency`. -/
structure LanguageProficiency where
  language : String
  proficiency : String

/-- From `api.ts` interface `CareerProfile`.  TypeScript optional fields
become `Option`; `number` becomes `ℚ`; `Record` types become association
lists. -/
structure CareerProfile where
  date_of_birth : Option String := none
  gender : Option String := none
  current_country : Option String := none
  current_city : Option String := none
  nationality : Option String := none
  languages_spoken : Option (List LanguageProficiency) := none
  current_education_level : Option String := none
  institution_name : Option String := none
  current_major : Option String := none
  current_gpa : Option ℚ := none
  grading_scale : Option String := none
  expected_graduation_year : Option ℚ := none
  high_school_stream : Option String := none
  key_subjects_strength : Option (List String) := none
  key_subjects_interest : Option (List String) := none
  standardized_test_scores : Option (List (String × ℚ)) := none
  target_career_fields : Option (List String) := none
  specific_roles : Option (List String) := none
  known_job_title : Option String := none
  known_company_industry : Option String := none
  primary_career_goal : Option String := none
  desired_role_level : Option String := none
  preferred_work_env : Option (List String) := none
  willingness_to_relocate : Option String := none
  technical_skills : Option (List (String × String)) := none
  soft_skills : Option (List (String × ℚ)) := none
  subjects_of_interest : Option (List String) := none
  hobbies_activities : Option (List String) := none
  enjoyable_project_desc : Option String := none
  work_preference : Option String := none
  work_style : Option String := none
  role_preference : Option String := none
  risk_tolerance : Option String := none
  learning_style : Option (List String) := none
  investment_capacity : Option String := none
  financial_dependents : Option Bool := none
  financial_details : Option String := none
  target_min_salary : Option ℚ := none
  hours_per_week : Option ℚ := none
  preferred_learning_mode : Option (List String) := none
  desired_workforce_timeline : Option String := none
  has_mentor : Option Bool := none
  institution_guidance_quality : Option ℚ := none
  market_awareness : Option String := none
  career_concerns : Option (List String) := none
  resume_text : Option String := none
  resume_filename : Option String := none
  optimism_level : Option String := none
  priority_weights : Option (List (String × ℚ)) := none

/-- From `api.ts` interface `SimulationSummary`. -/
structure SimulationSummary where
  target_role : Option String := none
  timeline_years : Option ℚ := none
  success_probability : Option ℚ := none
  total_investment : Option ℚ := none
  expected_salary : Option ℚ := none
  recommended_path : Option String := none
  key_milestones : Option (List String) := none

/-- From `api.ts` interface `DashboardMilestone`. -/
structure DashboardMilestone where
  id : String
  label : String
  description : String
  year : ℚ
  quarter : ℚ
  type_ : String
  status : String
  position_x : ℚ
  position_y : ℚ

/-- From `api.ts` interface `SkillNode`. -/
structure SkillNode where
  id : String
  name : String
  category : String
  current_level : ℚ
  target_level : ℚ
  importance : String

/-- From `api.ts` interface `SalaryDataPoint`. -/
structure SalaryDataPoint where
  year : ℚ
  conservative : ℚ
  realistic : ℚ
  ambitious : ℚ

/-- From `api.ts` interface `SkillRadarData`. -/
structure SkillRadarData where
  skill : String
  current : ℚ
  required : ℚ

/-- From `api.ts` interface `RiskBreakdownData`. -/
structure RiskBreakdownData where
  name : String
  category : Option String := none
  value : ℚ
  score : Option ℚ := none
  fill : String

/-- A TypeScript `string | number` union value. -/
inductive StrNum
  | str (s : String)
  | num (q : ℚ)

/-- Inline object type of `DashboardData.gap_analysis_chart`. -/
structure GapChartEntry where
  category : String
  gap : ℚ

/-- Inline object type of `DashboardData.investment_breakdown`. -/
structure InvestmentEntry where
  name : String
  value : ℚ

/-- Inline object type of `DashboardData.monthly_projection`. -/
structure MonthlyProjection where
  month : String
  income : ℚ
  expenses : ℚ
  net : ℚ

/-- Inline object type of `DashboardData.timeline_progress`. -/
structure TimelineProgress where
  year : ℚ
  phase : String
  progress : ℚ

/-- Inline object type of `DashboardData.path_comparison`. -/
structure PathComparison where
  metric : String
  conservative : StrNum
  realistic : StrNum
  ambitious : StrNum

/-- Inline object type of `DashboardData.key_insights`. -/
structure KeyInsight where
  title : String
  insight : String
  reasoning : String
  type_ : String

/-- Inline object type of `DashboardData.decision_rationale`. -/
structure DecisionRationale where
  decision : String
  why : String
  impact : String

/-- Inline object type of `DashboardData.immediate_actions`. -/
structure ImmediateAction where
  action : String
  priority : String
  timeframe : String
  impact : String

/-- Inline object type of `DashboardData.risk_indicators`. -/
structure RiskIndicator where
  name : String
  level : String
  trend : String

/-- Inline object type of `DashboardData.key_metrics`. -/
structure KeyMetric where
  title : String
  value : StrNum
  change : Option String := none
  icon : Option String := none

/-- From `api.ts` interface `DashboardData`.  The two
`Record<string, unknown>` members are modelled opaquely as string
association lists. -/
structure DashboardData where
  milestones : List DashboardMilestone
  skill_nodes : List SkillNode
  salary_progression : List SalaryDataPoint
  skill_radar : List SkillRadarData
  risk_breakdown : List RiskBreakdownData
  gap_analysis_chart : List GapChartEntry
  investment_breakdown : List InvestmentEntry
  monthly_projection : List MonthlyProjection
  timeline_progress : List TimelineProgress
  path_comparison : List PathComparison
  key_insights : List KeyInsight
  decision_rationale : List DecisionRationale
  top_recommendations : List String
  immediate_actions : List ImmediateAction
  risk_indicators : List RiskIndicator
  key_metrics : List KeyMetric
  selected_career_summary : List (String × String)
  summary : List (String × String)

/-- From `api.ts` interface `YearMilestone`. -/
structure YearMilestone where
  quarter : ℚ
  title : String
  description : String
  type_ : String
  estimated_cost : ℚ
  estimated_hours : ℚ
  resources : List String
  success_metrics : List String
  reasoning : Option String := none
  dependencies : Option (List String) := none
  risk_if_skipped : Option String := none

/-- From `api.ts` interface `YearPlan`. -/
structure YearPlan where
  year_number : ℚ
  year_label : String
  phase : String
  primary_focus : String
  phase_reasoning : Option String := none
  focus_reasoning : Option String := none
  milestones : List YearMilestone
  expected_role : Option String := none
  expected_salary_range : Option String := none
  key_skills_acquired : List String
  skill_progress_target : Option (List (String × ℚ)) := none
  potential_setbacks : List String
  risk_mitigation : Option (List String) := none
  success_indicators : Option (List String) := none
  buffer_time_weeks : ℚ
  year_summary : String

/-- From `api.ts` interface `CareerPath`. -/
structure CareerPath where
  path_type : String
  path_label : String
  total_years : ℚ
  yearly_plans : List YearPlan
  final_target_role : String
  final_expected_salary : ℚ
  major_milestones : List String
  assumptions : List String
  key_decision_points : List String

/-- From `api.ts` interface `TimelineData`. -/
structure TimelineData where
  conservative_path : Option CareerPath := none
  realistic_path : Option CareerPath := none
  ambitious_path : Option CareerPath := none
  recommended_path : String
  recommendation_reason : String
  vibe_check_warnings : List String
  alignment_score : ℚ

/-- From `api.ts` interface `CostBreakdown`. -/
structure CostBreakdown where
  item_name : String
  category : String
  amount : ℚ
  currency : String
  is_recurring : Bool
  frequency : Option String := none
  notes : Option String := none

/-- From `api.ts` interface `YearlyFinancials`. -/
structure YearlyFinancials where
  year_number : ℚ
  total_investment : ℚ
  cost_breakdown : List CostBreakdown
  expected_income : ℚ
  income_source : String
  net_cash_flow : ℚ
  cumulative_investment : ℚ
  cumulative_income : ℚ

/-- Inline object type of `FinancialAnalysis.salary_milestones`. -/
structure SalaryMilestone where
  year : ℚ
  expected_salary : ℚ
  role : String
  reasoning : String

/-- Inline object type of `FinancialAnalysis.investment_by_category`. -/
structure InvestmentCategory where
  category : String
  amount : ℚ
  percentage : ℚ

/-- From `api.ts` interface `FinancialAnalysis`. -/
structure FinancialAnalysis where
  total_investment_required : ℚ
  yearly_financials : List YearlyFinancials
  break_even_year : ℚ
  break_even_month : ℚ
  five_year_roi : ℚ
  ten_year_projected_earnings : ℚ
  affordability_rating : String
  affordability_notes : List String
  cost_saving_opportunities : List String
  funding_options : List String
  meets_min_salary_target : Bool
  years_to_target_salary : ℚ
  investment_reasoning : Option String := none
  break_even_reasoning : Option String := none
  five_year_roi_reasoning : Option String := none
  affordability_reasoning : Option String := none
  salary_target_reasoning : Option String := none
  salary_milestones : Option (List SalaryMilestone) := none
  investment_by_category : Option (List InvestmentCategory) := none

/-- From `api.ts` interface `RiskFactor`. -/
structure RiskFactor where
  factor_name : String
  category : String
  severity : String
  probability : ℚ
  impact_description : String
  mitigation_strategies : List String
  reasoning : Option String := none

/-- From `api.ts` interface `RiskAssessment`. -/
structure RiskAssessment where
  success_probability_score : ℚ
  confidence_interval : String
  risk_factors : List RiskFactor
  market_risk_score : ℚ
  personal_risk_score : ℚ
  financial_risk_score : ℚ
  technical_risk_score : ℚ
  overall_risk_rating : String
  key_concerns : List String
  key_opportunities : List String
  recommendations : List String
  success_reasoning : Option String := none
  market_risk_reasoning : Option String := none
  personal_risk_reasoning : Option String := none
  financial_risk_reasoning : Option String := none
  technical_risk_reasoning : Option String := none
  comparison_reasoning : Option String := none
  best_case_outcome : Option String := none
  worst_case_outcome : Option String := none
  most_likely_outcome : Option String := none

/-- From `api.ts` interface `SkillGap`. -/
structure SkillGap where
  skill_name : String
  current_level : String
  required_level : String
  gap_severity : ℚ
  estimated_time_to_close : String
  recommended_resources : List String
  reasoning : Option String := none
  priority : Option String := none
  learning_path : Option (List String) := none

/-- From `api.ts` interface `GapAnalysis`. -/
structure GapAnalysis where
  overall_gap_score : ℚ
  gap_category : String
  technical_skill_gaps : List SkillGap
  soft_skill_gaps : List SkillGap
  education_gap : Option String := none
  certification_gaps : List String
  experience_gap_years : ℚ
  critical_bottlenecks : List String
  timeline_bottlenecks : List String
  existing_strengths : List String
  competitive_advantages : List String
  personality_frictions : List String
  stress_risks : List String
  analysis_reasoning : Option String := none
  education_gap_score : Option ℚ := none
  education_gap_reasoning : Option String := none
  experience_gap_score : Option ℚ := none
  experience_gap_reasoning : Option String := none
  top_priorities : Option (List String) := none
  quick_wins : Option (List String) := none

/-- From `api.ts` interface `SimulationResponse`. -/
structure SimulationResponse where
  success : Bool
  simulation_id : String
  processing_time_ms : ℚ
  summary : SimulationSummary
  dashboard_data : Option DashboardData := none
  timeline : Option TimelineData := none
  financial_analysis : Option FinancialAnalysis := none
  risk_assessment : Option RiskAssessment := none
  gap_analysis : Option GapAnalysis := none
  warnings : List String
  errors : List String

/-- From `api.ts` interface `CareerFitReasoning`. -/
structure CareerFitReasoning where
  strengths_alignment : List String
  interest_match : List String
  skill_transferability : List String
  growth_potential_reasons : List String
  market_demand_reasons : List String
  potential_challenges : List String
  why_now : String

/-- From `api.ts` interface `CareerFit`. -/
structure CareerFit where
  rank : ℚ
  career_title : String
  career_field : String
  overall_fit_score : ℚ
  skill_fit_score : ℚ
  interest_fit_score : ℚ
  market_fit_score : ℚ
  personality_fit_score : ℚ
  tagline : String
  reasoning : CareerFitReasoning
  typical_salary_range : String
  time_to_entry : String
  difficulty_level : String
  top_3_reasons : List String
  key_skills_needed : List String
  immediate_next_steps : List String

/-- From `api.ts` interface `CareerMatchingResponse`. -/
structure CareerMatchingResponse where
  success : Bool
  session_id : String
  processing_time_ms : ℚ
  analysis_summary : String
  profile_highlights : List String
  career_fits : List CareerFit
  methodology_explanation : String
  confidence_level : String
  confidence_reasoning : String
  errors : List String

/-! ## The client simulation store (zustand), from the store module -/

/-- The `loadingStage` union `'matching' | 'simulation'`. -/
inductive LoadingStage
  | matching
  | simulation
deriving DecidableEq

/-- The state part of the `SimulationStore` interface. -/
structure SimulationStore where
  profile : CareerProfile
  currentStep : Int
  matchingResult : Option CareerMatchingResponse
  sessionId : Option String
  selectedCareerIndex : Option Int
  selectedCareer : Option CareerFit
  isLoading : Bool
  loadingStage : Option LoadingStage
  result : Option SimulationResponse
  error : Option String

/-- The `initialProfile` constant of the store module.
`expected_graduation_year` is `new Date().getFullYear() + 2`, so the
current year is a parameter. -/
def initialProfile (currentYear : ℚ) : CareerProfile :=
  { current_education_level := some ""
    institution_name := some ""
    current_major := some ""
    current_gpa := none
    grading_scale := some "10.0"
    expected_graduation_year := some (currentYear + 2)
    target_career_fields := some []
    specific_roles := some []
    primary_career_goal := some ""
    desired_role_level := some ""
    preferred_work_env := some []
    technical_skills := some []
    soft_skills := some []
    work_style := some ""
    risk_tolerance := some "Medium"
    investment_capacity := some ""
    hours_per_week := some 20
    current_country := some ""
    market_awareness := some "Medium"
    career_concerns := some []
    optimism_level := some "Balanced" }

/-- The initial store state passed to `create`. -/
def initialStoreState (currentYear : ℚ) : SimulationStore :=
  { profile := initialProfile currentYear
    currentStep := 0
    matchingResult := none
    sessionId := none
    selectedCareerIndex := none
    selectedCareer := none
    isLoading := false
    loadingStage := none
    result := none
    error := none }

/-- Object-spread merge used by `updateProfile`: fields present in the
update override the current profile. -/
def mergeProfile (p u : CareerProfile) : CareerProfile :=
  { date_of_birth := u.date_of_birth.orElse fun _ => p.date_of_birth
    gender := u.gender.orElse fun _ => p.gender
    current_country := u.current_country.orElse fun _ => p.current_country
    current_city := u.current_city.orElse fun _ => p.current_city
    nationality := u.nationality.orElse fun _ => p.nationality
    languages_spoken := u.languages_spoken.orElse fun _ => p.languages_spoken
    current_education_level := u.current_education_level.orElse fun _ => p.current_education_level
    institution_name := u.institution_name.orElse fun _ => p.institution_name
    current_major := u.current_major.orElse fun _ => p.current_major
    current_gpa := u.current_gpa.orElse fun _ => p.current_gpa
    grading_scale := u.grading_scale.orElse fun _ => p.grading_scale
    expected_graduation_year := u.expected_graduation_year.orElse fun _ => p.expected_graduation_year
    high_school_stream := u.high_school_stream.orElse fun _ => p.high_school_stream
    key_subjects_strength := u.key_subjects_strength.orElse fun _ => p.key_subjects_strength
    key_subjects_interest := u.key_subjects_interest.orElse fun _ => p.key_subjects_interest
    standardized_test_scores := u.standardized_test_scores.orElse fun _ => p.standardized_test_scores
    target_career_fields := u.target_career_fields.orElse fun _ => p.target_career_fields
    specific_roles := u.specific_roles.orElse fun _ => p.specific_roles
    known_job_title := u.known_job_title.orElse fun _ => p.known_job_title
    known_company_industry := u.known_company_industry.orElse fun _ => p.known_company_industry
    primary_career_goal := u.primary_career_goal.orElse fun _ => p.primary_career_goal
    desired_role_level := u.desired_role_level.orElse fun _ => p.desired_role_level
    preferred_work_env := u.preferred_work_env.orElse fun _ => p.preferred_work_env
    willingness_to_relocate := u.willingness_to_relocate.orElse fun _ => p.willingness_to_relocate
    technical_skills := u.technical_skills.orElse fun _ => p.technical_skills
    soft_skills := u.soft_skills.orElse fun _ => p.soft_skills
    subjects_of_interest := u.subjects_of_interest.orElse fun _ => p.subjects_of_interest
    hobbies_activities := u.hobbies_activities.orElse fun _ => p.hobbies_activities
    enjoyable_project_desc := u.enjoyable_project_desc.orElse fun _ => p.enjoyable_project_desc
    work_preference := u.work_preference.orElse fun _ => p.work_preference
    work_style := u.work_style.orElse fun _ => p.work_style
    role_preference := u.role_preference.orElse fun _ => p.role_preference
    risk_tolerance := u.risk_tolerance.orElse fun _ => p.risk_tolerance
    learning_style := u.learning_style.orElse fun _ => p.learning_style
    investment_capacity := u.investment_capacity.orElse fun _ => p.investment_capacity
    financial_dependents := u.financial_dependents.orElse fun _ => p.financial_dependents
    financial_details := u.financial_details.orElse fun _ => p.financial_details
    target_min_salary := u.target_min_salary.orElse fun _ => p.target_min_salary
    hours_per_week := u.hours_per_week.orElse fun _ => p.hours_per_week
    preferred_learning_mode := u.preferred_learning_mode.orElse fun _ => p.preferred_learning_mode
    desired_workforce_timeline := u.desired_workforce_timeline.orElse fun _ => p.desired_workforce_timeline
    has_mentor := u.has_mentor.orElse fun _ => p.has_mentor
    institution_guidance_quality := u.institution_guidance_quality.orElse fun _ => p.institution_guidance_quality
    market_awareness := u.market_awareness.orElse fun _ => p.market_awareness
    career_concerns := u.career_concerns.orElse fun _ => p.career_concerns
    resume_text := u.resume_text.orElse fun _ => p.resume_text
    resume_filename := u.resume_filename.orElse fun _ => p.resume_filename
    optimism_level := u.optimism_level.orElse fun _ => p.optimism_level
    priority_weights := u.priority_weights.orElse fun _ => p.priority_weights }

/-- The store actions, one constructor per action of the store module. -/
inductive StoreAction
  | setProfile (p : CareerProfile)
  | updateProfile (u : CareerProfile)
  | setCurrentStep (step : Int)
  | nextStep
  | prevStep
  | setLoading (loading : Bool) (stage : Option LoadingStage)
  | setMatchingResult (r : Option CareerMatchingResponse)
  | selectCareer (index : Int) (career : CareerFit)
  | setResult (r : Option SimulationResponse)
  | setError (e : Option String)
  | reset
  | resetToCareerSelection

/-- One `set` call of the store, per the store module.  In
`setMatchingResult`, `sessionId` is `result?.session_id || null`:
`null` when the result is absent and, by JavaScript falsiness, when its
`session_id` is the empty string.  `currentYear` is the year observed
when the module was loaded; `reset` restores the module-level
`initialProfile` constant built from it. -/
def applyAction (currentYear : ℚ) (s : SimulationStore) : StoreAction → SimulationStore
  | .setProfile p => { s with profile := p }
  | .updateProfile u => { s with profile := mergeProfile s.profile u }
  | .setCurrentStep step => { s with currentStep := step }
  | .nextStep => { s with currentStep := s.currentStep + 1 }
  | .prevStep => { s with currentStep := max 0 (s.currentStep - 1) }
  | .setLoading loading stage => { s with isLoading := loading, loadingStage := stage }
  | .setMatchingResult r =>
      { s with
        matchingResult := r
        sessionId :=
          match r with
          | none => none
          | some m => if m.session_id = "" then none else some m.session_id }
  | .selectCareer index career =>
      { s with selectedCareerIndex := some index, selectedCareer := some career }
  | .setResult r => { s with result := r }
  | .setError e => { s with error := e }
  | .reset =>
      { s with
        profile := initialProfile currentYear
        currentStep := 0
        matchingResult := none
        sessionId := none
        selectedCareerIndex := none
        selectedCareer := none
        result := none
        error := none }
  | .resetToCareerSelection =>
      { s with
        selectedCareerIndex := none
        selectedCareer := none
        result := none
        error := none }

/-- Fold a sequence of store actions from a starting state. -/
def runActions (currentYear : ℚ) (s : SimulationStore) (acts : List StoreAction) : SimulationStore :=
  acts.foldl (applyAction currentYear) s

/-! ## The workflow orchestration engine

The engine sources (`agent/src/graph.py` and `agent/src/agents/*`) are
not among the shipped files; only `src/python-server/README.md` and the
specification describe them.  Everything in this section is therefore
modelled from the specification, as marked on each definition. -/

/-- Modelled from the spec (section 2, README workflow diagram): the seven
pipeline stages plus the alternative-path stage.  `dAlt` is the stage the
README calls `AlternativePathSuggester` and the spec calls the
alternative-path stage after node C. -/
inductive NodeId
  | a
  | b
  | c
  | d
  | dAlt
  | e
  | f
  | g
deriving DecidableEq

/-- Modelled from the spec (section 4.3): the node-state lattice
`Pending, Ready, Running, Succeeded, Failed, Skipped`. -/
inductive NodeStatus
  | pending
  | ready
  | running
  | succeeded
  | failed
  | skipped
deriving DecidableEq

/-- Modelled from the spec (section 3): the named `WorkflowState` fields a
stage delta may set (`warnings`/`errors` are append channels, not keys). -/
inductive FieldId
  | semanticSummary
  | persona
  | careerFits
  | marketData
  | gapAnalysis
  | timelinePaths
  | financialAnalysis
  | riskAssessment
  | dashboardData
deriving DecidableEq

/-- All nine delta keys. -/
def allFields : List FieldId :=
  [.semanticSummary, .persona, .careerFits, .marketData, .gapAnalysis,
   .timelinePaths, .financialAnalysis, .riskAssessment, .dashboardData]

/-- Modelled from the spec (section 3): `marketData` is the
salary/requirement data written by MarketScout; per the README it holds
salary ranges, hard/soft requirements and emerging skills. -/
structure MarketData where
  salary_ranges : List (String × ℚ)
  hard_requirements : List String
  soft_requirements : List String
  emerging_skills : List String

/-- Modelled from the spec (section 3): `gapAnalysis` holds the
skill/education/personality gap scores and the derived
`gapScore ∈ [0,100]` written by GapAnalyst. -/
structure GapScores where
  skillGapScore : ℚ
  educationGapScore : ℚ
  personalityGapScore : ℚ
  gapScore : ℚ

/-- Modelled from the spec (section 3): the `WorkflowState` record
threaded through the pipeline.  Each named field is owned by one stage;
`warnings` and `errors` are append-only sequences. -/
structure WorkflowState where
  profile : CareerProfile
  semanticSummary : Option String := none
  persona : Option String := none
  careerFits : Option (List CareerFit) := none
  marketData : Option MarketData := none
  gapAnalysis : Option GapScores := none
  timelinePaths : Option TimelineData := none
  financialAnalysis : Option FinancialAnalysis := none
  riskAssessment : Option RiskAssessment := none
  dashboardData : Option DashboardData := none
  warnings : List String := []
  errors : List String := []

/-- Modelled from the spec (sections 2 and 4.2): the `PartialState` delta
a stage returns; absent keys leave the state untouched, and the
`warnings`/`errors` lists are concatenated onto the state. -/
structure PartialState where
  semanticSummary : Option String := none
  persona : Option String := none
  careerFits : Option (List CareerFit) := none
  marketData : Option MarketData := none
  gapAnalysis : Option GapScores := none
  timelinePaths : Option TimelineData := none
  financialAnalysis : Option FinancialAnalysis := none
  riskAssessment : Option RiskAssessment := none
  dashboardData : Option DashboardData := none
  warnings : List String := []
  errors : List String := []

/-- Setting one field from a delta: a present key overrides, an absent
key keeps the old value. -/
def setField {α : Type} (newVal oldVal : Option α) : Option α :=
  match newVal with
  | some v => some v
  | none => oldVal

/-- Modelled from the spec (section 4.2): `apply(delta)` returns a new
state with the delta's present keys set and `warnings`/`errors`
concatenated, never replaced. -/
def WorkflowState.apply (s : WorkflowState) (d : PartialState) : WorkflowState :=
  { profile := s.profile
    semanticSummary := setField d.semanticSummary s.semanticSummary
    persona := setField d.persona s.persona
    careerFits := setField d.careerFits s.careerFits
    marketData := setField d.marketData s.marketData
    gapAnalysis := setField d.gapAnalysis s.gapAnalysis
    timelinePaths := setField d.timelinePaths s.timelinePaths
    financialAnalysis := setField d.financialAnalysis s.financialAnalysis
    riskAssessment := setField d.riskAssessment s.riskAssessment
    dashboardData := setField d.dashboardData s.dashboardData
    warnings := s.warnings ++ d.warnings
    errors := s.errors ++ d.errors }

/-- Whether a delta carries the given key. -/
def PartialState.hasField (d : PartialState) : FieldId → Bool
  | .semanticSummary => d.semanticSummary.isSome
  | .persona => d.persona.isSome
  | .careerFits => d.careerFits.isSome
  | .marketData => d.marketData.isSome
  | .gapAnalysis => d.gapAnalysis.isSome
  | .timelinePaths => d.timelinePaths.isSome
  | .financialAnalysis => d.financialAnalysis.isSome
  | .riskAssessment => d.riskAssessment.isSome
  | .dashboardData => d.dashboardData.isSome

/-- Two deltas write disjoint key sets. -/
def disjointDeltas (d1 d2 : PartialState) : Bool :=
  allFields.all fun fld => !(d1.hasField fld && d2.hasField fld)

/-- Modelled from the spec (section 4.1): the `writes` sets the seven
graph nodes declare.  Node B (CareerMatcher/MarketScout) owns
`careerFits` and `marketData`; the alternative-path stage fills the
`timelinePaths` slot like node D. -/
def writesOf : NodeId → List FieldId
  | .a => [.semanticSummary, .persona]
  | .b => [.careerFits, .marketData]
  | .c => [.gapAnalysis]
  | .d => [.timelinePaths]
  | .dAlt => [.timelinePaths]
  | .e => [.financialAnalysis]
  | .f => [.riskAssessment]
  | .g => [.dashboardData]

/-- Modelled from the spec (section 4.2): the merge validates that a
delta's keys are a subset of the calling node's declared `writes`. -/
def validKeys (d : PartialState) (n : NodeId) : Bool :=
  allFields.all fun fld => !(d.hasField fld) || decide (fld ∈ writesOf n)

/-- Modelled from the spec (section 2): a `StageFunction` maps the
current state (and an attempt counter of the retry wrapper) to a delta
or an error. -/
def StageFunction : Type :=
  WorkflowState → Nat → Except String PartialState

/-- The per-node stage implementations handed to the engine. -/
def Stubs : Type := NodeId → StageFunction

/-- Try attempts `i, i+1, ...` until one succeeds or `fuel` further
attempts are exhausted; returns the result with the attempt index used. -/
def attemptFrom (stage : Nat → Except String PartialState) :
    Nat → Nat → Except String PartialState × Nat
  | i, 0 => (stage i, i)
  | i, fuel + 1 =>
    match stage i with
    | Except.ok d => (Except.ok d, i)
    | Except.error _ => attemptFrom stage (i + 1) fuel

/-- Modelled from the spec (section 4.4): transient failures are retried
up to a fixed bound of 2 retries; exhausting retries is terminal. -/
def retryBound : Nat := 2

/-- Run one node's stage with the retry policy and the section 4.2 key
validation; returns the terminal outcome and the attempt index. -/
def runNode (stubs : Stubs) (n : NodeId) (s : WorkflowState) :
    Except String PartialState × Nat :=
  match attemptFrom (stubs n s) 0 retryBound with
  | (Except.ok d, att) =>
    if validKeys d n then (Except.ok d, att)
    else (Except.error "delta writes a field outside the declared writes set", att)
  | (Except.error e, att) => (Except.error e, att)

/-- Modelled from the spec (sections 3 and 8): the conditional edge after
node C reads only the just-committed `gapScore`; the branch threshold is
80 and the boundary `gapScore == 80` goes to node D. -/
def gapThreshold : ℚ := 80

/-- The gap score the conditional edge reads from the committed state. -/
def gapScoreOf (s : WorkflowState) : ℚ :=
  match s.gapAnalysis with
  | some ga => ga.gapScore
  | none => 0

/-- Modelled from the spec (section 4.4): the documented default
financial payload substituted when FinancialAdvisor fails after retries;
structurally valid, same shape as success. -/
def defaultFinancialAnalysis : FinancialAnalysis :=
  { total_investment_required := 0
    yearly_financials := []
    break_even_year := 0
    break_even_month := 0
    five_year_roi := 0
    ten_year_projected_earnings := 0
    affordability_rating := "Unknown"
    affordability_notes := []
    cost_saving_opportunities := []
    funding_options := []
    meets_min_salary_target := false
    years_to_target_salary := 0 }

/-- Modelled from the spec (section 4.4): the documented default risk
payload substituted when RiskAssessor fails after retries. -/
def defaultRiskAssessment : RiskAssessment :=
  { success_probability_score := 0
    confidence_interval := "Unavailable"
    risk_factors := []
    market_risk_score := 0
    personal_risk_score := 0
    financial_risk_score := 0
    technical_risk_score := 0
    overall_risk_rating := "Unknown"
    key_concerns := []
    key_opportunities := []
    recommendations := [] }

/-- Warning appended when the financial stage degrades. -/
def financialFallbackWarning : String :=
  "Financial analysis unavailable; default values substituted"

/-- Warning appended when the risk stage degrades. -/
def riskFallbackWarning : String :=
  "Risk assessment unavailable; default values substituted"

/-- Modelled from the spec (section 4.4): the degraded delta substituted
for a tolerated-failure node, carrying the default payload and a
warning. -/
def toleratedFallback : NodeId → PartialState
  | .e => { financialAnalysis := some defaultFinancialAnalysis
            warnings := [financialFallbackWarning] }
  | .f => { riskAssessment := some defaultRiskAssessment
            warnings := [riskFallbackWarning] }
  | _ => {}

/-- A RunLog event without timestamps: node, terminal status, attempt
index and error summary. -/
structure LogEvent where
  nodeId : NodeId
  status : NodeStatus
  attempt : Nat
  errorSummary : Option String := none
deriving DecidableEq

/-- A timed RunLog entry, per spec section 4.5. -/
structure RunLogEntry where
  nodeId : NodeId
  startTime : Nat
  endTime : Nat
  status : NodeStatus
  attempt : Nat
  errorSummary : Option String := none
deriving DecidableEq

/-- Terminal status of each node after a run. -/
structure NodeStatuses where
  a : NodeStatus := .pending
  b : NodeStatus := .pending
  c : NodeStatus := .pending
  d : NodeStatus := .pending
  dAlt : NodeStatus := .pending
  e : NodeStatus := .pending
  f : NodeStatus := .pending
  g : NodeStatus := .pending
deriving DecidableEq

/-- The outcome of a whole run (timestamps not yet attached). -/
structure RunResult where
  state : WorkflowState
  statuses : NodeStatuses
  log : List LogEvent
  success : Bool
  failedNode : Option NodeId

/-- Result of the parallel group and the terminal node. -/
structure TailOut where
  state : WorkflowState
  eStatus : NodeStatus
  fStatus : NodeStatus
  gStatus : NodeStatus
  success : Bool
  failedNode : Option NodeId
  log : List LogEvent

/-- Modelled from the spec (sections 4.3 and 4.4): after node D (or the
alternative stage) commits, E and F are dispatched concurrently on that
same state; each is a tolerated-failure node whose terminal failure is
replaced by the documented fallback delta plus a warning; the join
barrier then runs G, whose failure fails the run. -/
def runAfterBranch (stubs : Stubs) (sD : WorkflowState) : TailOut :=
  let eOut :=
    match runNode stubs .e sD with
    | (Except.ok d, att) => (d, NodeStatus.succeeded, LogEvent.mk .e .succeeded att none)
    | (Except.error err, att) =>
      (toleratedFallback .e, NodeStatus.failed, LogEvent.mk .e .failed att (some err))
  let fOut :=
    match runNode stubs .f sD with
    | (Except.ok d, att) => (d, NodeStatus.succeeded, LogEvent.mk .f .succeeded att none)
    | (Except.error err, att) =>
      (toleratedFallback .f, NodeStatus.failed, LogEvent.mk .f .failed att (some err))
  let sEF := (sD.apply eOut.1).apply fOut.1
  match runNode stubs .g sEF with
  | (Except.ok dG, att) =>
    { state := sEF.apply dG
      eStatus := eOut.2.1
      fStatus := fOut.2.1
      gStatus := .succeeded
      success := true
      failedNode := none
      log := [eOut.2.2, fOut.2.2, LogEvent.mk .g .succeeded att none] }
  | (Except.error err, att) =>
    { state := sEF
      eStatus := eOut.2.1
      fStatus := fOut.2.1
      gStatus := .failed
      success := false
      failedNode := some .g
      log := [eOut.2.2, fOut.2.2, LogEvent.mk .g .failed att (some err)] }

/-- Modelled from the spec (section 4.3): the conditional edge evaluated
immediately after C succeeds, reading only the just-committed
`gapAnalysis.gapScore`: at most 80 runs node D, above 80 runs the
alternative stage; the stage not chosen is `Skipped` and never runs.
Nodes D and the alternative stage are critical: terminal failure aborts
the run and skips all downstream nodes. -/
def runRest (stubs : Stubs) (sC : WorkflowState) : RunResult :=
  if gapScoreOf sC ≤ gapThreshold then
    match runNode stubs .d sC with
    | (Except.ok dD, att) =>
      let t := runAfterBranch stubs (sC.apply dD)
      { state := t.state
        statuses := { d := .succeeded, dAlt := .skipped
                      e := t.eStatus, f := t.fStatus, g := t.gStatus }
        log := LogEvent.mk .d .succeeded att none :: t.log
        success := t.success
        failedNode := t.failedNode }
    | (Except.error err, att) =>
      { state := sC
        statuses := { d := .failed, dAlt := .skipped
                      e := .skipped, f := .skipped, g := .skipped }
        log := [LogEvent.mk .d .failed att (some err)]
        success := false
        failedNode := some .d }
  else
    match runNode stubs .dAlt sC with
    | (Except.ok dD, att) =>
      let t := runAfterBranch stubs (sC.apply dD)
      { state := t.state
        statuses := { dAlt := .succeeded, d := .skipped
                      e := t.eStatus, f := t.fStatus, g := t.gStatus }
        log := LogEvent.mk .dAlt .succeeded att none :: t.log
        success := t.success
        failedNode := t.failedNode }
    | (Except.error err, att) =>
      { state := sC
        statuses := { dAlt := .failed, d := .skipped
                      e := .skipped, f := .skipped, g := .skipped }
        log := [LogEvent.mk .dAlt .failed att (some err)]
        success := false
        failedNode := some .dAlt }

/-- Modelled from the spec (section 4.3): the full run.  A, B and C are
critical and sequential; a terminal failure aborts the run, marks every
not-yet-started dependent `Skipped` and attributes the failing node. -/
def runCore (stubs : Stubs) (s0 : WorkflowState) : RunResult :=
  match runNode stubs .a s0 with
  | (Except.error err, att) =>
    { state := s0
      statuses := { a := .failed, b := .skipped, c := .skipped, d := .skipped
                    dAlt := .skipped, e := .skipped, f := .skipped, g := .skipped }
      log := [LogEvent.mk .a .failed att (some err)]
      success := false
      failedNode := some .a }
  | (Except.ok dA, attA) =>
    let s1 := s0.apply dA
    match runNode stubs .b s1 with
    | (Except.error err, att) =>
      { state := s1
        statuses := { a := .succeeded, b := .failed, c := .skipped, d := .skipped
                      dAlt := .skipped, e := .skipped, f := .skipped, g := .skipped }
        log := [LogEvent.mk .a .succeeded attA none, LogEvent.mk .b .failed att (some err)]
        success := false
        failedNode := some .b }
    | (Except.ok dB, attB) =>
      let s2 := s1.apply dB
      match runNode stubs .c s2 with
      | (Except.error err, att) =>
        { state := s2
          statuses := { a := .succeeded, b := .succeeded, c := .failed, d := .skipped
                        dAlt := .skipped, e := .skipped, f := .skipped, g := .skipped }
          log := [LogEvent.mk .a .succeeded attA none, LogEvent.mk .b .succeeded attB none,
                  LogEvent.mk .c .failed att (some err)]
          success := false
          failedNode := some .c }
      | (Except.ok dC, attC) =>
        let s3 := s2.apply dC
        let r := runRest stubs s3
        { state := r.state
          statuses := { r.statuses with a := .succeeded, b := .succeeded, c := .succeeded }
          log := [LogEvent.mk .a .succeeded attA none, LogEvent.mk .b .succeeded attB none,
                  LogEvent.mk .c .succeeded attC none] ++ r.log
          success := r.success
          failedNode := r.failedNode }

/-- Attach wall-clock timestamps to the log: entry `i` starts at
`clock (2*i)` and ends at `clock (2*i + 1)`. -/
def stampTimes (clock : Nat → Nat) : Nat → List LogEvent → List RunLogEntry
  | _, [] => []
  | i, ev :: rest =>
    { nodeId := ev.nodeId
      startTime := clock (2 * i)
      endTime := clock (2 * i + 1)
      status := ev.status
      attempt := ev.attempt
      errorSummary := ev.errorSummary } :: stampTimes clock (i + 1) rest

/-- Drop the timestamps of a timed RunLog. -/
def stripTimes (entries : List RunLogEntry) : List LogEvent :=
  entries.map fun en =>
    { nodeId := en.nodeId
      status := en.status
      attempt := en.attempt
      errorSummary := en.errorSummary }

/-- A run outcome with a timed RunLog. -/
structure TimedRunResult where
  state : WorkflowState
  statuses : NodeStatuses
  runLog : List RunLogEntry
  success : Bool
  failedNode : Option NodeId

/-- Modelled from the spec (sections 4.3 and 4.5): a full engine run;
the clock only decorates the RunLog with wall-clock times and never
influences scheduling. -/
def runWorkflow (stubs : Stubs) (s0 : WorkflowState) (clock : Nat → Nat) :
    TimedRunResult :=
  let r := runCore stubs s0
  { state := r.state
    statuses := r.statuses
    runLog := stampTimes clock 0 r.log
    success := r.success
    failedNode := r.failedNode }

/-- A node's terminal status shows it actually ran. -/
def ranStatus (st : NodeStatus) : Prop :=
  st = .succeeded ∨ st = .failed

/-! ## Graph construction and eager validation (spec section 4.1) -/

/-- Modelled from the spec (section 4.1): each node declares `id`,
`reads`, `writes` and `dependsOn` (the stage body is held separately by
the executor). -/
structure NodeSpecG where
  id : NodeId
  reads : List FieldId
  writes : List FieldId
  dependsOn : List NodeId
deriving DecidableEq

/-- A candidate execution graph: the list of declared nodes. -/
abbrev AgentGraph : Type := List NodeSpecG

/-- The declared dependencies of a node id (first declaration wins). -/
def depsOf (g : AgentGraph) (n : NodeId) : List NodeId :=
  match g.find? (fun ns => decide (ns.id = n)) with
  | some ns => ns.dependsOn
  | none => []

/-- The dependency edge relation: `depEdge g m n` holds when `m` is
declared as a dependency of `n`, i.e. `m` must complete before `n`. -/
def depEdge (g : AgentGraph) (m n : NodeId) : Prop :=
  m ∈ depsOf g n

instance (g : AgentGraph) (m n : NodeId) : Decidable (depEdge g m n) :=
  inferInstanceAs (Decidable (m ∈ depsOf g n))

/-- All eight node identifiers. -/
def allNodeIds : List NodeId :=
  [.a, .b, .c, .d, .dAlt, .e, .f, .g]

/-- Fuel-bounded rank of a node: one more than the maximal rank of its
dependencies.  A graph with a dependency cycle has no rank for the nodes
on the cycle, whatever the fuel. -/
def rankOf (g : AgentGraph) : Nat → NodeId → Option Nat
  | 0, _ => none
  | fuel + 1, n =>
    ((depsOf g n).foldr
      (fun m acc =>
        match rankOf g fuel m, acc with
        | some rm, some a => some (Nat.max rm a)
        | _, _ => none)
      (some 0)).map fun a => a + 1

/-- The maximal rank over a list of nodes, failing if any is
unranked. -/
def maxRanks (g : AgentGraph) (fuel : Nat) : List NodeId → Option Nat
  | [] => some 0
  | m :: rest =>
    match rankOf g fuel m, maxRanks g fuel rest with
    | some rm, some a => some (Nat.max rm a)
    | _, _ => none

/-- Fuel used by validation: enough for any acyclic declaration list. -/
def rankFuel (g : AgentGraph) : Nat := g.length + 1

/-- Every declared node receives a rank (the acyclicity check). -/
def allRanked (g : AgentGraph) : Bool :=
  g.all fun ns => (rankOf g (rankFuel g) ns.id).isSome

/-- Fuel-bounded reachability along dependency edges (at least one
edge). -/
def reachB (g : AgentGraph) : Nat → NodeId → NodeId → Bool
  | 0, x, y => decide (depEdge g x y)
  | fuel + 1, x, y =>
    decide (depEdge g x y) || (depsOf g y).any fun m => reachB g fuel x m

/-- Two nodes are ordered when one (transitively) precedes the other. -/
def orderedB (g : AgentGraph) (x y : NodeId) : Bool :=
  reachB g (rankFuel g) x y || reachB g (rankFuel g) y x

/-- The declared `writes` sets of two nodes overlap. -/
def writesOverlap (n1 n2 : NodeSpecG) : Bool :=
  n1.writes.any fun w => n2.writes.contains w

/-- Modelled from the spec (section 4.1): any two distinct nodes without
an ordering edge between them must declare disjoint `writes`. -/
def disjointWritesOk (g : AgentGraph) : Bool :=
  g.all fun n1 => g.all fun n2 =>
    decide (n1.id = n2.id) || !writesOverlap n1 n2 || orderedB g n1.id n2.id

/-- Modelled from the spec (section 4.1): graph validation — cycles are
rejected and unordered overlapping writes are rejected. -/
def validateGraph (g : AgentGraph) : Bool :=
  allRanked g && disjointWritesOk g

/-- A graph that passed construction-time validation. -/
structure ValidatedGraph where
  graph : AgentGraph
  valid : validateGraph graph = true

/-- Modelled from the spec (sections 4.1 and 9): the validated `Graph`
object is built once at process start; an invalid candidate is
rejected. -/
def mkGraph (g : AgentGraph) : Option ValidatedGraph :=
  if h : validateGraph g = true then some ⟨g, h⟩ else none

/-- The fixed seven-node career graph of the spec (section 4.1) plus the
alternative-path stage: A→B→C→(D | alternative)→{E,F}→G.  The spec does
not pin the alternative stage's write set; it is left empty here. -/
def careerGraph : AgentGraph :=
  [ { id := .a, reads := [], writes := [.semanticSummary, .persona], dependsOn := [] },
    { id := .b, reads := [.semanticSummary, .persona],
      writes := [.careerFits, .marketData], dependsOn := [.a] },
    { id := .c, reads := [.careerFits, .marketData],
      writes := [.gapAnalysis], dependsOn := [.b] },
    { id := .d, reads := [.gapAnalysis], writes := [.timelinePaths], dependsOn := [.c] },
    { id := .dAlt, reads := [.gapAnalysis], writes := [], dependsOn := [.c] },
    { id := .e, reads := [.timelinePaths], writes := [.financialAnalysis],
      dependsOn := [.d, .dAlt] },
    { id := .f, reads := [.timelinePaths], writes := [.riskAssessment],
      dependsOn := [.d, .dAlt] },
    { id := .g, reads := [.financialAnalysis, .riskAssessment],
      writes := [.dashboardData], dependsOn := [.e, .f] } ]

/-! ## Session persistence and the two client-visible phases
(spec section 6) -/

/-- Modelled from the spec (section 6): a persisted session holds the
serialized `WorkflowState` with a time-to-live. -/
structure StoredSession where
  state : WorkflowState
  expiresAt : Nat

/-- Modelled from the spec (section 6): `sessionId → serialized
WorkflowState` persisted between the two phases. -/
abbrev SessionStore : Type := List (String × StoredSession)

/-- Modelled from the spec (section 6): the session time-to-live; the
concrete duration is configuration. -/
def sessionTTL : Nat := 3600

/-- Modelled from the spec (section 6): the analysis summary returned by
phase 1, derived from the parser's semantic summary. -/
def analysisSummaryOf (s : WorkflowState) : String :=
  s.semanticSummary.getD ""

/-- The phase-1 response: session id, ranked candidates, summary. -/
structure MatchingSummary where
  sessionId : String
  careerFits : List CareerFit
  analysisSummary : String

/-- Modelled from the spec (section 6, inbound phase 1):
`submitProfile(profile)` runs nodes A–C to completion, persists the
resulting `WorkflowState` under a fresh session id with a time-to-live,
and returns the session id, the top-3 ranked candidates (the
`careerFits` field is written ranked by CareerMatcher) and the analysis
summary.  The HTTP shell exposing this as `/analyze` is glue and not
modelled. -/
def submitProfile (stubs : Stubs) (store : SessionStore) (now : Nat)
    (profile : CareerProfile) (newSessionId : String) :
    Except String (SessionStore × MatchingSummary) :=
  let s0 : WorkflowState := { profile := profile }
  match runNode stubs .a s0 with
  | (Except.error err, _) => Except.error err
  | (Except.ok dA, _) =>
    match runNode stubs .b (s0.apply dA) with
    | (Except.error err, _) => Except.error err
    | (Except.ok dB, _) =>
      match runNode stubs .c ((s0.apply dA).apply dB) with
      | (Except.error err, _) => Except.error err
      | (Except.ok dC, _) =>
        let sC := ((s0.apply dA).apply dB).apply dC
        Except.ok
          ((newSessionId, ⟨sC, now + sessionTTL⟩) :: store,
           ⟨newSessionId, (sC.careerFits.getD []).take 3, analysisSummaryOf sC⟩)

/-- Modelled from the spec (section 7): the phase-2 error taxonomy
entries visible at this boundary. -/
inductive Phase2Error
  | sessionNotFound
  | stageFailure (nodeId : NodeId) (msg : String)
deriving DecidableEq

/-- Modelled from the spec (section 6): loading a persisted session;
unknown ids and ids past their time-to-live fail with
`SessionNotFound`. -/
def lookupSession (store : SessionStore) (now : Nat) (sid : String) :
    Except Phase2Error WorkflowState :=
  match store.lookup sid with
  | none => Except.error .sessionNotFound
  | some stored =>
    if stored.expiresAt ≤ now then Except.error .sessionNotFound
    else Except.ok stored.state

/-- Modelled from the spec (section 6, inbound phase 2): inject the
selected career by narrowing `careerFits` to the chosen candidate. -/
def injectSelectedCareer (s : WorkflowState) (careerIndex : Nat) : WorkflowState :=
  { s with careerFits := ((s.careerFits.getD []).get? careerIndex).map fun cf => [cf] }

/-- Modelled from the spec (section 6, inbound phase 2):
`selectCareer(sessionId, careerIndex)` loads the persisted state (failing
with `SessionNotFound` for unknown or expired sessions), injects the
selected career and runs the remainder of the graph, D through G. -/
def selectCareer (stubs : Stubs) (store : SessionStore) (now : Nat)
    (sid : String) (careerIndex : Nat) : Except Phase2Error RunResult :=
  match lookupSession store now sid with
  | Except.error e => Except.error e
  | Except.ok s =>
    let r := runRest stubs (injectSelectedCareer s careerIndex)
    if r.success then Except.ok r
    else Except.error (.stageFailure (r.failedNode.getD .g) "workflow aborted")

/-! ## The client wrapper `simulateSelectedCareer` from `api.ts` -/

/-- The error body of a non-ok `/simulate/selected` response as the
client observes it: `response.json()` may fail, parse without a `detail`
member, or produce a `detail` string. -/
inductive ErrorBody
  | unparseable
  | noDetail
  | withDetail (d : String)
deriving DecidableEq

/-- A settled `fetch` response for `simulateSelectedCareer`: the HTTP
`ok` flag, the parsed `SimulationResponse` body of an ok response, and
the error body otherwise. -/
structure FetchSimResponse where
  ok : Bool
  body : SimulationResponse
  errorBody : ErrorBody

/-- From `api.ts`: the message thrown for a non-ok response —
`error.detail || 'Simulation failed'`, where a failed `json()` parse is
replaced by `{ detail: 'Unknown error' }` and a missing or empty
`detail` falls back to `'Simulation failed'`. -/
def errorMessageOf : ErrorBody → String
  | .unparseable => "Unknown error"
  | .noDetail => "Simulation failed"
  | .withDetail d => if d = "" then "Simulation failed" else d

/-- From `api.ts` function `simulateSelectedCareer`: throw exactly when
the response is not ok, otherwise return the parsed body. -/
def simulateSelectedCareer (resp : FetchSimResponse) :
    Except String SimulationResponse :=
  if resp.ok then Except.ok resp.body
  else Except.error (errorMessageOf resp.errorBody)

/-! ## Sample data used by concrete witnesses -/

/-- A profile with every optional field absent. -/
def emptyProfile : CareerProfile := {}

/-- The empty initial engine state over the empty profile. -/
def startState : WorkflowState := { profile := emptyProfile }

/-- Reasoning block shared by the sample career fits. -/
def sampleReasoning : CareerFitReasoning :=
  { strengths_alignment := ["strong quantitative background"]
    interest_match := ["enjoys building systems"]
    skill_transferability := ["programming carries over"]
    growth_potential_reasons := ["growing field"]
    market_demand_reasons := ["high demand"]
    potential_challenges := ["competitive entry"]
    why_now := "market demand is high" }

/-- A sample ranked career fit. -/
def sampleFit (r : ℚ) (title : String) : CareerFit :=
  { rank := r
    career_title := title
    career_field := "Technology"
    overall_fit_score := 90 - r
    skill_fit_score := 80
    interest_fit_score := 85
    market_fit_score := 75
    personality_fit_score := 70
    tagline := "a solid match"
    reasoning := sampleReasoning
    typical_salary_range := "$90k-$140k"
    time_to_entry := "2-3 years"
    difficulty_level := "Moderate"
    top_3_reasons := ["skills", "interest", "market"]
    key_skills_needed := ["Python", "ML"]
    immediate_next_steps := ["build a portfolio"] }

/-- Sample market data written by node B. -/
def sampleMarketData : MarketData :=
  { salary_ranges := [("entry", 90000)]
    hard_requirements := ["CS degree or equivalent"]
    soft_requirements := ["communication"]
    emerging_skills := ["LLM engineering"]
    }

/-- Gap scores with a moderate derived gap score of 45. -/
def gapScores45 : GapScores :=
  { skillGapScore := 40, educationGapScore := 50, personalityGapScore := 45, gapScore := 45 }

/-- Gap scores with a severe derived gap score of 95. -/
def gapScores95 : GapScores :=
  { skillGapScore := 95, educationGapScore := 95, personalityGapScore := 95, gapScore := 95 }

/-- Sample timeline written by node D. -/
def sampleTimeline : TimelineData :=
  { recommended_path := "realistic"
    recommendation_reason := "balances speed and cost"
    vibe_check_warnings := []
    alignment_score := 82 }

/-- Sample financial analysis written by node E on success. -/
def sampleFinancialAnalysis : FinancialAnalysis :=
  { total_investment_required := 15000
    yearly_financials := []
    break_even_year := 3
    break_even_month := 6
    five_year_roi := 220
    ten_year_projected_earnings := 1200000
    affordability_rating := "Moderate"
    affordability_notes := []
    cost_saving_opportunities := []
    funding_options := []
    meets_min_salary_target := true
    years_to_target_salary := 4 }

/-- Sample risk assessment written by node F on success. -/
def sampleRiskAssessment : RiskAssessment :=
  { success_probability_score := 75
    confidence_interval := "65-85"
    risk_factors := []
    market_risk_score := 30
    personal_risk_score := 20
    financial_risk_score := 25
    technical_risk_score := 35
    overall_risk_rating := "Moderate"
    key_concerns := []
    key_opportunities := []
    recommendations := [] }

/-- Sample dashboard payload written by node G. -/
def sampleDashboard : DashboardData :=
  { milestones := []
    skill_nodes := []
    salary_progression := []
    skill_radar := []
    risk_breakdown := []
    gap_analysis_chart := []
    investment_breakdown := []
    monthly_projection := []
    timeline_progress := []
    path_comparison := []
    key_insights := []
    decision_rationale := []
    top_recommendations := []
    immediate_actions := []
    risk_indicators := []
    key_metrics := []
    selected_career_summary := []
    summary := [] }

/-- Deterministic per-node deltas used by the concrete stage stubs. -/
def stubDelta : NodeId → PartialState
  | .a => { semanticSummary := some "ambitious CS student", persona := some "Builder" }
  | .b => { careerFits := some [sampleFit 1 "ML Engineer", sampleFit 2 "Data Scientist",
                                sampleFit 3 "Backend Engineer", sampleFit 4 "QA Engineer"]
            marketData := some sampleMarketData }
  | .c => { gapAnalysis := some gapScores45 }
  | .d => { timelinePaths := some sampleTimeline }
  | .dAlt => { timelinePaths := some sampleTimeline }
  | .e => { financialAnalysis := some sampleFinancialAnalysis }
  | .f => { riskAssessment := some sampleRiskAssessment }
  | .g => { dashboardData := some sampleDashboard }

/-- Stage stubs where every node succeeds deterministically. -/
def okStubs : Stubs := fun n _ _ => Except.ok (stubDelta n)

/-- Stage stubs where node B fails on every attempt. -/
def stubsBFails : Stubs := fun n =>
  if n = .b then fun _ _ => Except.error "search API rate limited"
  else okStubs n

/-- Stage stubs where node E fails on every attempt. -/
def stubsEFails : Stubs := fun n =>
  if n = .e then fun _ _ => Except.error "LLM call timed out"
  else okStubs n

/-- A sample matching response with a non-empty session id. -/
def sampleMatchingResponse : CareerMatchingResponse :=
  { success := true
    session_id := "sess_123"
    processing_time_ms := 12000
    analysis_summary := "three strong matches found"
    profile_highlights := ["strong GPA"]
    career_fits := [sampleFit 1 "ML Engineer"]
    methodology_explanation := "weighted multi-factor scoring"
    confidence_level := "High"
    confidence_reasoning := "profile is detailed"
    errors := [] }

/-- A sample simulation response body. -/
def sampleSimulationResponse : SimulationResponse :=
  { success := true
    simulation_id := "sim_1702400000"
    processing_time_ms := 15000
    summary := { success_probability := some 75, timeline_years := some 5 }
    warnings := []
    errors := [] }

/-! ## Theorems -/

/-- Claim C9: for every client simulation-store state, the
`resetToCareerSelection` action sets `selectedCareerIndex`,
`selectedCareer`, `result` and `error` to null and leaves every other
field — `profile`, `currentStep`, `matchingResult`, `sessionId`,
`isLoading` and `loadingStage` — unchanged. -/
theorem resetToCareerSelection_frame (y : ℚ) (s : SimulationStore) :
    (applyAction y s .resetToCareerSelection).selectedCareerIndex = none ∧
    (applyAction y s .resetToCareerSelection).selectedCareer = none ∧
    (applyAction y s .resetToCareerSelection).result = none ∧
    (applyAction y s .resetToCareerSelection).error = none ∧
    (applyAction y s .resetToCareerSelection).profile = s.profile ∧
    (applyAction y s .resetToCareerSelection).currentStep = s.currentStep ∧
    (applyAction y s .resetToCareerSelection).matchingResult = s.matchingResult ∧
    (applyAction y s .resetToCareerSelection).sessionId = s.sessionId ∧
    (applyAction y s .resetToCareerSelection).isLoading = s.isLoading ∧
    (applyAction y s .resetToCareerSelection).loadingStage = s.loadingStage := by
  refine ⟨rfl, rfl, rfl, rfl, rfl, rfl, rfl, rfl, rfl, rfl⟩

/-- One store action preserves "a session id implies a matching
result". -/
theorem applyAction_preserves_sessionInv (y : ℚ) (s : SimulationStore)
    (a : StoreAction) (h : s.sessionId ≠ none → s.matchingResult ≠ none) :
    (applyAction y s a).sessionId ≠ none → (applyAction y s a).matchingResult ≠ none := by
  cases a with
  | setMatchingResult r =>
    cases r with
    | none => intro hs; simp [applyAction] at hs
    | some m => intro _; simp [applyAction]
  | reset => intro hs; simp [applyAction] at hs
  | setProfile p => exact h
  | updateProfile u => exact h
  | setCurrentStep step => exact h
  | nextStep => exact h
  | prevStep => exact h
  | setLoading loading stage => exact h
  | selectCareer index career => exact h
  | setResult r => exact h
  | setError e => exact h
  | resetToCareerSelection => exact h

/-- Folding actions preserves the invariant. -/
theorem runActions_preserves_sessionInv (y : ℚ) :
    ∀ (acts : List StoreAction) (s : SimulationStore),
      (s.sessionId ≠ none → s.matchingResult ≠ none) →
      ((runActions y s acts).sessionId ≠ none → (runActions y s acts).matchingResult ≠ none) := by
  intro acts
  induction acts with
  | nil => intro s h; exact h
  | cons a rest ih =>
    intro s h
    exact ih (applyAction y s a) (applyAction_preserves_sessionInv y s a h)

/-- Claim C10: starting from the initial client simulation-store state
and applying any sequence of store actions, `sessionId` is non-null only
if `matchingResult` is non-null; `setMatchingResult` is the only action
besides `reset` that assigns `sessionId`, it assigns the given result's
`session_id` (null when the result is null or its `session_id` is
empty), and `reset` clears both fields together. -/
theorem store_sessionId_requires_matchingResult :
    (∀ (y : ℚ) (acts : List StoreAction),
       (runActions y (initialStoreState y) acts).sessionId ≠ none →
       (runActions y (initialStoreState y) acts).matchingResult ≠ none) ∧
    (∀ (y : ℚ) (s : SimulationStore) (a : StoreAction),
       (∀ r, a ≠ StoreAction.setMatchingResult r) → a ≠ StoreAction.reset →
       (applyAction y s a).sessionId = s.sessionId) ∧
    (∀ (y : ℚ) (s : SimulationStore) (r : Option CareerMatchingResponse),
       (applyAction y s (StoreAction.setMatchingResult r)).sessionId =
         (match r with
          | none => none
          | some m => if m.session_id = "" then none else some m.session_id)) ∧
    (∀ (y : ℚ) (s : SimulationStore),
       (applyAction y s StoreAction.reset).sessionId = none ∧
       (applyAction y s StoreAction.reset).matchingResult = none) := by
  refine ⟨?_, ?_, ?_, ?_⟩
  · intro y acts
    refine runActions_preserves_sessionInv y acts (initialStoreState y) ?_
    intro h
    exact absurd rfl h
  · intro y s a hnotSet hnotReset
    cases a with
    | setMatchingResult r => exact absurd rfl (hnotSet r)
    | reset => exact absurd rfl hnotReset
    | setProfile p => rfl
    | updateProfile u => rfl
    | setCurrentStep step => rfl
    | nextStep => rfl
    | prevStep => rfl
    | setLoading loading stage => rfl
    | selectCareer index career => rfl
    | setResult r => rfl
    | setError e => rfl
    | resetToCareerSelection => rfl
  · intro y s r; rfl
  · intro y s; exact ⟨rfl, rfl⟩

/-- Witness for claim C10 at a concrete action sequence: after a
successful `setMatchingResult` the store holds a matching result. -/
theorem store_sessionId_requires_matchingResult_witness :
    (runActions 2026 (initialStoreState 2026)
      [StoreAction.setMatchingResult (some sampleMatchingResponse)]).matchingResult ≠ none :=
  store_sessionId_requires_matchingResult.1 2026
    [StoreAction.setMatchingResult (some sampleMatchingResponse)]
    (by simp [runActions, applyAction, sampleMatchingResponse])

/-- Every delta key is listed in `allFields`. -/
theorem mem_allFields (fld : FieldId) : fld ∈ allFields := by
  cases fld <;> simp [allFields]

/-- Disjoint deltas never both carry the same key. -/
theorem hasField_of_disjointDeltas {d1 d2 : PartialState}
    (h : disjointDeltas d1 d2 = true) (fld : FieldId) :
    d1.hasField fld = true → d2.hasField fld = false := by
  intro h1
  have hall := List.all_eq_true.mp h fld (mem_allFields fld)
  simp [h1] at hall
  exact hall

/-- Setting two fields that are not both present commutes. -/
theorem setField_comm {α : Type} (a b c : Option α)
    (h : a.isSome = true → b.isSome = false) :
    setField b (setField a c) = setField a (setField b c) := by
  cases a with
  | none => simp [setField]
  | some x =>
    cases b with
    | none => simp [setField]
    | some y => exact absurd (h rfl) (by simp)

/-- Claim C2, amended: folding two disjoint-key deltas in either order
yields states that agree on the profile and on all nine owned fields,
and whose `warnings` and `errors` sequences are permutations of each
other; the two states are fully identical whenever at least one of the
two deltas appends nothing to `warnings`/`errors` — but not in general,
because the append-only channels concatenate in fold order. -/
theorem parallel_deltas_fold_commutes (s : WorkflowState) (d1 d2 : PartialState)
    (hdisj : disjointDeltas d1 d2 = true) :
    ((s.apply d1).apply d2).profile = ((s.apply d2).apply d1).profile ∧
    ((s.apply d1).apply d2).semanticSummary = ((s.apply d2).apply d1).semanticSummary ∧
    ((s.apply d1).apply d2).persona = ((s.apply d2).apply d1).persona ∧
    ((s.apply d1).apply d2).careerFits = ((s.apply d2).apply d1).careerFits ∧
    ((s.apply d1).apply d2).marketData = ((s.apply d2).apply d1).marketData ∧
    ((s.apply d1).apply d2).gapAnalysis = ((s.apply d2).apply d1).gapAnalysis ∧
    ((s.apply d1).apply d2).timelinePaths = ((s.apply d2).apply d1).timelinePaths ∧
    ((s.apply d1).apply d2).financialAnalysis = ((s.apply d2).apply d1).financialAnalysis ∧
    ((s.apply d1).apply d2).riskAssessment = ((s.apply d2).apply d1).riskAssessment ∧
    ((s.apply d1).apply d2).dashboardData = ((s.apply d2).apply d1).dashboardData ∧
    ((s.apply d1).apply d2).warnings.Perm ((s.apply d2).apply d1).warnings ∧
    ((s.apply d1).apply d2).errors.Perm ((s.apply d2).apply d1).errors ∧
    ((d1.warnings = [] ∧ d1.errors = []) ∨ (d2.warnings = [] ∧ d2.errors = []) →
      (s.apply d1).apply d2 = (s.apply d2).apply d1) := by
  have hc : ∀ fld, d1.hasField fld = true → d2.hasField fld = false :=
    hasField_of_disjointDeltas hdisj
  have hsem := setField_comm d1.semanticSummary d2.semanticSummary s.semanticSummary
    (hc .semanticSummary)
  have hper := setField_comm d1.persona d2.persona s.persona (hc .persona)
  have hcf := setField_comm d1.careerFits d2.careerFits s.careerFits (hc .careerFits)
  have hmd := setField_comm d1.marketData d2.marketData s.marketData (hc .marketData)
  have hga := setField_comm d1.gapAnalysis d2.gapAnalysis s.gapAnalysis (hc .gapAnalysis)
  have htp := setField_comm d1.timelinePaths d2.timelinePaths s.timelinePaths
    (hc .timelinePaths)
  have hfa := setField_comm d1.financialAnalysis d2.financialAnalysis s.financialAnalysis
    (hc .financialAnalysis)
  have hra := setField_comm d1.riskAssessment d2.riskAssessment s.riskAssessment
    (hc .riskAssessment)
  have hdd := setField_comm d1.dashboardData d2.dashboardData s.dashboardData
    (hc .dashboardData)
  refine ⟨rfl, hsem, hper, hcf, hmd, hga, htp, hfa, hra, hdd, ?_, ?_, ?_⟩
  · show List.Perm ((s.warnings ++ d1.warnings) ++ d2.warnings)
      ((s.warnings ++ d2.warnings) ++ d1.warnings)
    rw [List.append_assoc, List.append_assoc]
    exact List.Perm.append_left s.warnings List.perm_append_comm
  · show List.Perm ((s.errors ++ d1.errors) ++ d2.errors)
      ((s.errors ++ d2.errors) ++ d1.errors)
    rw [List.append_assoc, List.append_assoc]
    exact List.Perm.append_left s.errors List.perm_append_comm
  · rintro (⟨hw, he⟩ | ⟨hw, he⟩) <;>
      simp [WorkflowState.apply, hw, he, hsem, hper, hcf, hmd, hga, htp, hfa, hra, hdd]

/-- Witness for claim C2 (amended) at concrete disjoint deltas without
warnings: the two fold orders agree exactly on the financial and risk
fields. -/
theorem parallel_deltas_fold_commutes_witness :
    ((startState.apply (stubDelta .e)).apply (stubDelta .f)).financialAnalysis =
      ((startState.apply (stubDelta .f)).apply (stubDelta .e)).financialAnalysis ∧
    ((startState.apply (stubDelta .e)).apply (stubDelta .f)).riskAssessment =
      ((startState.apply (stubDelta .f)).apply (stubDelta .e)).riskAssessment ∧
    (startState.apply (stubDelta .e)).apply (stubDelta .f) =
      (startState.apply (stubDelta .f)).apply (stubDelta .e) := by
  have h := parallel_deltas_fold_commutes startState (stubDelta .e) (stubDelta .f) (by decide)
  exact ⟨h.2.2.2.2.2.2.2.1, h.2.2.2.2.2.2.2.2.1,
    h.2.2.2.2.2.2.2.2.2.2.2.2 (Or.inl ⟨rfl, rfl⟩)⟩

/-- The first delta of the counterexample to literal claim C2:
FinancialAdvisor's payload plus a pushed warning. -/
def cexDeltaE : PartialState :=
  { financialAnalysis := some sampleFinancialAnalysis
    warnings := ["financial projection is an estimate"] }

/-- The second delta of the counterexample to literal claim C2:
RiskAssessor's payload plus a pushed warning. -/
def cexDeltaF : PartialState :=
  { riskAssessment := some sampleRiskAssessment
    warnings := ["risk model confidence is moderate"] }

/-- Counterexample to claim C2 as stated: the two deltas write disjoint
key sets, yet folding them in the two orders yields different
`WorkflowState`s, because each pushes a warning and the append-only
`warnings` sequence records them in fold order. -/
theorem parallel_deltas_fold_not_identical :
    disjointDeltas cexDeltaE cexDeltaF = true ∧
    (startState.apply cexDeltaE).apply cexDeltaF ≠
      (startState.apply cexDeltaF).apply cexDeltaE := by
  refine ⟨by decide, ?_⟩
  intro h
  have hw := congrArg WorkflowState.warnings h
  simp [WorkflowState.apply, startState, cexDeltaE, cexDeltaF] at hw

/-- A session state persisted by the witnesses. -/
def sampleStoredState : WorkflowState :=
  { profile := emptyProfile
    semanticSummary := some "ambitious CS student"
    careerFits := some [sampleFit 1 "ML Engineer"] }

/-- Claim C6: a phase-2 `selectCareer` call with an unknown session id,
or with a persisted state past its time-to-live, fails with
`SessionNotFound`; the client wrapper `simulateSelectedCareer` throws
exactly when the HTTP response is not ok and otherwise returns the
parsed simulation result. -/
theorem phase2_session_not_found_and_client_wrapper :
    (∀ (stubs : Stubs) (store : SessionStore) (now : Nat) (sid : String) (i : Nat),
       store.lookup sid = none →
       selectCareer stubs store now sid i = Except.error .sessionNotFound) ∧
    (∀ (stubs : Stubs) (store : SessionStore) (now : Nat) (sid : String) (i : Nat)
       (stored : StoredSession),
       store.lookup sid = some stored → stored.expiresAt ≤ now →
       selectCareer stubs store now sid i = Except.error .sessionNotFound) ∧
    (∀ resp : FetchSimResponse,
       (simulateSelectedCareer resp).isOk = resp.ok ∧
       (resp.ok = true → simulateSelectedCareer resp = Except.ok resp.body)) := by
  refine ⟨?_, ?_, ?_⟩
  · intro stubs store now sid i h
    simp [selectCareer, lookupSession, h]
  · intro stubs store now sid i stored h hexp
    simp [selectCareer, lookupSession, h, hexp]
  · intro resp
    constructor
    · cases hok : resp.ok <;> simp [simulateSelectedCareer, hok, Except.isOk, Except.toBool]
    · intro hok; simp [simulateSelectedCareer, hok]

/-- Witness for claim C6 at concrete inputs: an empty store, an expired
session, an ok response and a failed response. -/
theorem phase2_session_not_found_witness :
    selectCareer okStubs [] 0 "missing" 0 = Except.error .sessionNotFound ∧
    selectCareer okStubs [("s1", ⟨sampleStoredState, 5⟩)] 10 "s1" 0 =
      Except.error .sessionNotFound ∧
    simulateSelectedCareer ⟨true, sampleSimulationResponse, .unparseable⟩ =
      Except.ok sampleSimulationResponse ∧
    (simulateSelectedCareer ⟨false, sampleSimulationResponse, .noDetail⟩).isOk = false := by
  have h := phase2_session_not_found_and_client_wrapper
  refine ⟨h.1 okStubs [] 0 "missing" 0 rfl,
          h.2.1 okStubs [("s1", ⟨sampleStoredState, 5⟩)] 10 "s1" 0 ⟨sampleStoredState, 5⟩
            rfl (by decide),
          (h.2.2 ⟨true, sampleSimulationResponse, .unparseable⟩).2 rfl,
          (h.2.2 ⟨false, sampleSimulationResponse, .noDetail⟩).1⟩

/-- Stripping the timestamps recovers the untimed log. -/
theorem stripTimes_stampTimes (clock : Nat → Nat) :
    ∀ (i : Nat) (evs : List LogEvent), stripTimes (stampTimes clock i evs) = evs := by
  intro i evs
  induction evs generalizing i with
  | nil => rfl
  | cons ev rest ih =>
    simp only [stampTimes, stripTimes, List.map_cons, List.cons.injEq]
    exact ⟨trivial, ih (i + 1)⟩

/-- Claim C8: with fixed deterministic stage stubs and a fixed initial
state, two executions — however their wall clocks differ — produce
identical final `WorkflowState`s, identical node statuses, identical
run outcomes and identical RunLogs once timestamps are ignored. -/
theorem replay_deterministic (stubs : Stubs) (s0 : WorkflowState)
    (clock1 clock2 : Nat → Nat) :
    (runWorkflow stubs s0 clock1).state = (runWorkflow stubs s0 clock2).state ∧
    (runWorkflow stubs s0 clock1).statuses = (runWorkflow stubs s0 clock2).statuses ∧
    (runWorkflow stubs s0 clock1).success = (runWorkflow stubs s0 clock2).success ∧
    (runWorkflow stubs s0 clock1).failedNode = (runWorkflow stubs s0 clock2).failedNode ∧
    stripTimes (runWorkflow stubs s0 clock1).runLog =
      stripTimes (runWorkflow stubs s0 clock2).runLog := by
  refine ⟨rfl, rfl, rfl, rfl, ?_⟩
  show stripTimes (stampTimes clock1 0 (runCore stubs s0).log) =
    stripTimes (stampTimes clock2 0 (runCore stubs s0).log)
  rw [stripTimes_stampTimes, stripTimes_stampTimes]

/-- The conditional edge inside `runRest`: the gap score alone decides
which of the two branch stages runs, the other is skipped. -/
theorem runRest_branch (stubs : Stubs) (sC : WorkflowState) :
    (gapScoreOf sC ≤ gapThreshold →
       ranStatus (runRest stubs sC).statuses.d ∧
       (runRest stubs sC).statuses.dAlt = .skipped) ∧
    (gapThreshold < gapScoreOf sC →
       ranStatus (runRest stubs sC).statuses.dAlt ∧
       (runRest stubs sC).statuses.d = .skipped) ∧
    (ranStatus (runRest stubs sC).statuses.d ↔
       ¬ ranStatus (runRest stubs sC).statuses.dAlt) := by
  by_cases hg : gapScoreOf sC ≤ gapThreshold
  · have hds : (runRest stubs sC).statuses.dAlt = .skipped ∧
        ranStatus (runRest stubs sC).statuses.d := by
      unfold runRest
      rw [if_pos hg]
      rcases hd : runNode stubs .d sC with ⟨res, att⟩
      cases res with
      | ok dD => exact ⟨rfl, Or.inl rfl⟩
      | error err => exact ⟨rfl, Or.inr rfl⟩
    refine ⟨fun _ => ⟨hds.2, hds.1⟩, fun hlt => absurd hg (not_le.mpr hlt), ?_, ?_⟩
    · intro _
      rw [hds.1]
      rintro (h | h) <;> exact NodeStatus.noConfusion h
    · intro _
      exact hds.2
  · have hds : (runRest stubs sC).statuses.d = .skipped ∧
        ranStatus (runRest stubs sC).statuses.dAlt := by
      unfold runRest
      rw [if_neg hg]
      rcases hd : runNode stubs .dAlt sC with ⟨res, att⟩
      cases res with
      | ok dD => exact ⟨rfl, Or.inl rfl⟩
      | error err => exact ⟨rfl, Or.inr rfl⟩
    refine ⟨fun hle => absurd hle hg, fun _ => ⟨hds.2, hds.1⟩, ?_, ?_⟩
    · intro h
      rw [hds.1] at h
      rcases h with h | h <;> exact NodeStatus.noConfusion h
    · intro h
      exact absurd hds.2 h

/-- Claim C1: once A, B and C have committed, the conditional edge is
decided solely by the just-committed gap score — at most the threshold
runs TimelineSimulator (D) with the alternative stage skipped, above the
threshold runs the alternative stage with D skipped, and exactly one of
the two ever runs. -/
theorem branch_decided_by_gap_score (stubs : Stubs) (s0 : WorkflowState)
    (dA dB dC : PartialState) (aA aB aC : Nat)
    (hA : runNode stubs .a s0 = (Except.ok dA, aA))
    (hB : runNode stubs .b (s0.apply dA) = (Except.ok dB, aB))
    (hC : runNode stubs .c ((s0.apply dA).apply dB) = (Except.ok dC, aC)) :
    (gapScoreOf (((s0.apply dA).apply dB).apply dC) ≤ gapThreshold →
       ranStatus (runCore stubs s0).statuses.d ∧
       (runCore stubs s0).statuses.dAlt = .skipped) ∧
    (gapThreshold < gapScoreOf (((s0.apply dA).apply dB).apply dC) →
       ranStatus (runCore stubs s0).statuses.dAlt ∧
       (runCore stubs s0).statuses.d = .skipped) ∧
    (ranStatus (runCore stubs s0).statuses.d ↔
       ¬ ranStatus (runCore stubs s0).statuses.dAlt) := by
  have hcore :
      (runCore stubs s0).statuses.d =
        (runRest stubs (((s0.apply dA).apply dB).apply dC)).statuses.d ∧
      (runCore stubs s0).statuses.dAlt =
        (runRest stubs (((s0.apply dA).apply dB).apply dC)).statuses.dAlt := by
    unfold runCore
    simp only [hA, hB, hC]
    exact ⟨trivial, trivial⟩
  rw [hcore.1, hcore.2]
  exact runRest_branch stubs (((s0.apply dA).apply dB).apply dC)

/-- Witness for claim C1 at the deterministic stubs, whose committed gap
score is 45: TimelineSimulator runs and the alternative stage is
skipped. -/
theorem branch_decided_by_gap_score_witness :
    ranStatus (runCore okStubs startState).statuses.d ∧
    (runCore okStubs startState).statuses.dAlt = .skipped :=
  (branch_decided_by_gap_score okStubs startState
    (stubDelta .a) (stubDelta .b) (stubDelta .c) 0 0 0 rfl rfl rfl).1 (by decide)

/-- Branch-stage failure inside `runRest`: the run fails at node D and
the parallel group and terminal node are all skipped. -/
theorem runRest_d_fails (stubs : Stubs) (sC : WorkflowState) (err : String) (att : Nat)
    (hg : gapScoreOf sC ≤ gapThreshold)
    (hD : runNode stubs .d sC = (Except.error err, att)) :
    (runRest stubs sC).success = false ∧
    (runRest stubs sC).failedNode = some .d ∧
    (runRest stubs sC).statuses.dAlt = .skipped ∧
    (runRest stubs sC).statuses.e = .skipped ∧
    (runRest stubs sC).statuses.f = .skipped ∧
    (runRest stubs sC).statuses.g = .skipped := by
  unfold runRest
  rw [if_pos hg, hD]
  exact ⟨rfl, rfl, rfl, rfl, rfl, rfl⟩

/-- Claim C4: a critical node (A, B, C or D) that fails terminally
aborts the run — no downstream node ever executes, every
not-yet-started dependent is marked Skipped, and the run reports failure
attributing the failing node; in particular a terminal failure of node B
skips C, D, the alternative stage, E, F and G. -/
theorem critical_failure_aborts :
    (∀ (stubs : Stubs) (s0 : WorkflowState) (err : String) (att : Nat),
       runNode stubs .a s0 = (Except.error err, att) →
       (runCore stubs s0).success = false ∧
       (runCore stubs s0).failedNode = some .a ∧
       (runCore stubs s0).statuses.b = .skipped ∧
       (runCore stubs s0).statuses.c = .skipped ∧
       (runCore stubs s0).statuses.d = .skipped ∧
       (runCore stubs s0).statuses.dAlt = .skipped ∧
       (runCore stubs s0).statuses.e = .skipped ∧
       (runCore stubs s0).statuses.f = .skipped ∧
       (runCore stubs s0).statuses.g = .skipped) ∧
    (∀ (stubs : Stubs) (s0 : WorkflowState) (dA : PartialState) (aA : Nat)
       (err : String) (att : Nat),
       runNode stubs .a s0 = (Except.ok dA, aA) →
       runNode stubs .b (s0.apply dA) = (Except.error err, att) →
       (runCore stubs s0).success = false ∧
       (runCore stubs s0).failedNode = some .b ∧
       (runCore stubs s0).statuses.c = .skipped ∧
       (runCore stubs s0).statuses.d = .skipped ∧
       (runCore stubs s0).statuses.dAlt = .skipped ∧
       (runCore stubs s0).statuses.e = .skipped ∧
       (runCore stubs s0).statuses.f = .skipped ∧
       (runCore stubs s0).statuses.g = .skipped) ∧
    (∀ (stubs : Stubs) (s0 : WorkflowState) (dA dB : PartialState) (aA aB : Nat)
       (err : String) (att : Nat),
       runNode stubs .a s0 = (Except.ok dA, aA) →
       runNode stubs .b (s0.apply dA) = (Except.ok dB, aB) →
       runNode stubs .c ((s0.apply dA).apply dB) = (Except.error err, att) →
       (runCore stubs s0).success = false ∧
       (runCore stubs s0).failedNode = some .c ∧
       (runCore stubs s0).statuses.d = .skipped ∧
       (runCore stubs s0).statuses.dAlt = .skipped ∧
       (runCore stubs s0).statuses.e = .skipped ∧
       (runCore stubs s0).statuses.f = .skipped ∧
       (runCore stubs s0).statuses.g = .skipped) ∧
    (∀ (stubs : Stubs) (s0 : WorkflowState) (dA dB dC : PartialState) (aA aB aC : Nat)
       (err : String) (att : Nat),
       runNode stubs .a s0 = (Except.ok dA, aA) →
       runNode stubs .b (s0.apply dA) = (Except.ok dB, aB) →
       runNode stubs .c ((s0.apply dA).apply dB) = (Except.ok dC, aC) →
       gapScoreOf (((s0.apply dA).apply dB).apply dC) ≤ gapThreshold →
       runNode stubs .d (((s0.apply dA).apply dB).apply dC) = (Except.error err, att) →
       (runCore stubs s0).success = false ∧
       (runCore stubs s0).failedNode = some .d ∧
       (runCore stubs s0).statuses.dAlt = .skipped ∧
       (runCore stubs s0).statuses.e = .skipped ∧
       (runCore stubs s0).statuses.f = .skipped ∧
       (runCore stubs s0).statuses.g = .skipped) := by
  refine ⟨?_, ?_, ?_, ?_⟩
  · intro stubs s0 err att hA
    unfold runCore
    rw [hA]
    exact ⟨rfl, rfl, rfl, rfl, rfl, rfl, rfl, rfl, rfl⟩
  · intro stubs s0 dA aA err att hA hB
    unfold runCore
    simp only [hA, hB]
    exact ⟨trivial, trivial, trivial, trivial, trivial, trivial, trivial, trivial⟩
  · intro stubs s0 dA dB aA aB err att hA hB hC
    unfold runCore
    simp only [hA, hB, hC]
    exact ⟨trivial, trivial, trivial, trivial, trivial, trivial, trivial⟩
  · intro stubs s0 dA dB dC aA aB aC err att hA hB hC hg hD
    unfold runCore
    simp only [hA, hB, hC]
    have h := runRest_d_fails stubs (((s0.apply dA).apply dB).apply dC) err att hg hD
    exact ⟨h.1, h.2.1, h.2.2.1, h.2.2.2.1, h.2.2.2.2.1, h.2.2.2.2.2⟩

/-- Witness for claim C4: forcing node B to fail terminally on the
deterministic stubs skips C, D, the alternative stage, E, F and G and
attributes the failure to B. -/
theorem critical_failure_aborts_witness :
    (runCore stubsBFails startState).success = false ∧
    (runCore stubsBFails startState).failedNode = some .b ∧
    (runCore stubsBFails startState).statuses.c = .skipped ∧
    (runCore stubsBFails startState).statuses.d = .skipped ∧
    (runCore stubsBFails startState).statuses.dAlt = .skipped ∧
    (runCore stubsBFails startState).statuses.e = .skipped ∧
    (runCore stubsBFails startState).statuses.f = .skipped ∧
    (runCore stubsBFails startState).statuses.g = .skipped :=
  critical_failure_aborts.2.1 stubsBFails startState (stubDelta .a) 0
    "search API rate limited" 2 rfl rfl

/-- A node outcome accepted by the engine passed the write-set
validation. -/
theorem runNode_ok_valid {stubs : Stubs} {n : NodeId} {s : WorkflowState}
    {d : PartialState} {att : Nat}
    (h : runNode stubs n s = (Except.ok d, att)) : validKeys d n = true := by
  unfold runNode at h
  split at h
  · split at h
    · cases h
      assumption
    · simp at h
  · simp at h

/-- A validated delta carries no key outside the node's declared
writes. -/
theorem validKeys_none_of_not_mem {d : PartialState} {n : NodeId} {fld : FieldId}
    (h : validKeys d n = true) (hmem : fld ∉ writesOf n) : d.hasField fld = false := by
  have hall := List.all_eq_true.mp h fld (mem_allFields fld)
  simp [hmem] at hall
  exact hall

/-- A delta without the financial key leaves `financialAnalysis`
alone. -/
theorem financial_none_of_hasField_false {d : PartialState}
    (h : d.hasField .financialAnalysis = false) : d.financialAnalysis = none := by
  cases hx : d.financialAnalysis with
  | none => rfl
  | some v => simp [PartialState.hasField, hx] at h

/-- A delta without the risk key leaves `riskAssessment` alone. -/
theorem risk_none_of_hasField_false {d : PartialState}
    (h : d.hasField .riskAssessment = false) : d.riskAssessment = none := by
  cases hx : d.riskAssessment with
  | none => rfl
  | some v => simp [PartialState.hasField, hx] at h

/-- Degraded FinancialAdvisor inside `runRest` along the D branch: the
run still succeeds, the default financial payload is committed, the
warning is appended, and G succeeds. -/
theorem runRest_e_degrades (stubs : Stubs) (sC : WorkflowState)
    (dD dF dG : PartialState) (aD aF aG aE : Nat) (eMsg : String)
    (hg : gapScoreOf sC ≤ gapThreshold)
    (hD : runNode stubs .d sC = (Except.ok dD, aD))
    (hE : ∀ s, runNode stubs .e s = (Except.error eMsg, aE))
    (hF : runNode stubs .f (sC.apply dD) = (Except.ok dF, aF))
    (hG : ∀ s, runNode stubs .g s = (Except.ok dG, aG)) :
    (runRest stubs sC).success = true ∧
    (runRest stubs sC).state.financialAnalysis = some defaultFinancialAnalysis ∧
    financialFallbackWarning ∈ (runRest stubs sC).state.warnings ∧
    (runRest stubs sC).statuses.g = .succeeded := by
  have hdF : dF.financialAnalysis = none :=
    financial_none_of_hasField_false
      (validKeys_none_of_not_mem (runNode_ok_valid hF) (by decide))
  have hdG : dG.financialAnalysis = none :=
    financial_none_of_hasField_false
      (validKeys_none_of_not_mem (runNode_ok_valid (hG (sC.apply dD))) (by decide))
  unfold runRest
  rw [if_pos hg]
  simp only [hD]
  unfold runAfterBranch
  simp only [hE, hF, hG]
  refine ⟨by trivial, ?_, ?_, by trivial⟩
  · simp [WorkflowState.apply, setField, toleratedFallback, hdF, hdG]
  · simp [WorkflowState.apply, toleratedFallback, List.mem_append]

/-- Degraded RiskAssessor inside `runRest` along the alternative branch:
the run still succeeds, the default risk payload is committed, the
warning is appended, and G succeeds. -/
theorem runRest_f_degrades (stubs : Stubs) (sC : WorkflowState)
    (dD dE dG : PartialState) (aD aE aG aF : Nat) (fMsg : String)
    (hg : gapThreshold < gapScoreOf sC)
    (hD : runNode stubs .dAlt sC = (Except.ok dD, aD))
    (hE : runNode stubs .e (sC.apply dD) = (Except.ok dE, aE))
    (hF : ∀ s, runNode stubs .f s = (Except.error fMsg, aF))
    (hG : ∀ s, runNode stubs .g s = (Except.ok dG, aG)) :
    (runRest stubs sC).success = true ∧
    (runRest stubs sC).state.riskAssessment = some defaultRiskAssessment ∧
    riskFallbackWarning ∈ (runRest stubs sC).state.warnings ∧
    (runRest stubs sC).statuses.g = .succeeded := by
  have hdE : dE.riskAssessment = none :=
    risk_none_of_hasField_false
      (validKeys_none_of_not_mem (runNode_ok_valid hE) (by decide))
  have hdG : dG.riskAssessment = none :=
    risk_none_of_hasField_false
      (validKeys_none_of_not_mem (runNode_ok_valid (hG (sC.apply dD))) (by decide))
  unfold runRest
  rw [if_neg (not_le.mpr hg)]
  simp only [hD]
  unfold runAfterBranch
  simp only [hE, hF, hG]
  refine ⟨by trivial, ?_, ?_, by trivial⟩
  · simp [WorkflowState.apply, setField, toleratedFallback, hdE, hdG]
  · simp [WorkflowState.apply, toleratedFallback, List.mem_append]

/-- Claim C3: a run in which node E (or node F) fails all of its retries
still completes with `success: true` — the corresponding result field is
present with the documented, structurally valid default payload, a
warning is appended to `warnings`, and node G runs successfully.  The
two parts cover the two conditional branches. -/
theorem tolerated_failure_degrades :
    (∀ (stubs : Stubs) (s0 : WorkflowState) (dA dB dC dD dF dG : PartialState)
       (aA aB aC aD aF aG aE : Nat) (eMsg : String),
       runNode stubs .a s0 = (Except.ok dA, aA) →
       runNode stubs .b (s0.apply dA) = (Except.ok dB, aB) →
       runNode stubs .c ((s0.apply dA).apply dB) = (Except.ok dC, aC) →
       gapScoreOf (((s0.apply dA).apply dB).apply dC) ≤ gapThreshold →
       runNode stubs .d (((s0.apply dA).apply dB).apply dC) = (Except.ok dD, aD) →
       (∀ s, runNode stubs .e s = (Except.error eMsg, aE)) →
       runNode stubs .f ((((s0.apply dA).apply dB).apply dC).apply dD) =
         (Except.ok dF, aF) →
       (∀ s, runNode stubs .g s = (Except.ok dG, aG)) →
       (runCore stubs s0).success = true ∧
       (runCore stubs s0).state.financialAnalysis = some defaultFinancialAnalysis ∧
       financialFallbackWarning ∈ (runCore stubs s0).state.warnings ∧
       (runCore stubs s0).statuses.g = .succeeded) ∧
    (∀ (stubs : Stubs) (s0 : WorkflowState) (dA dB dC dD dE dG : PartialState)
       (aA aB aC aD aE aG aF : Nat) (fMsg : String),
       runNode stubs .a s0 = (Except.ok dA, aA) →
       runNode stubs .b (s0.apply dA) = (Except.ok dB, aB) →
       runNode stubs .c ((s0.apply dA).apply dB) = (Except.ok dC, aC) →
       gapThreshold < gapScoreOf (((s0.apply dA).apply dB).apply dC) →
       runNode stubs .dAlt (((s0.apply dA).apply dB).apply dC) = (Except.ok dD, aD) →
       runNode stubs .e ((((s0.apply dA).apply dB).apply dC).apply dD) =
         (Except.ok dE, aE) →
       (∀ s, runNode stubs .f s = (Except.error fMsg, aF)) →
       (∀ s, runNode stubs .g s = (Except.ok dG, aG)) →
       (runCore stubs s0).success = true ∧
       (runCore stubs s0).state.riskAssessment = some defaultRiskAssessment ∧
       riskFallbackWarning ∈ (runCore stubs s0).state.warnings ∧
       (runCore stubs s0).statuses.g = .succeeded) := by
  constructor
  · intro stubs s0 dA dB dC dD dF dG aA aB aC aD aF aG aE eMsg hA hB hC hg hD hE hF hG
    unfold runCore
    simp only [hA, hB, hC]
    have h := runRest_e_degrades stubs (((s0.apply dA).apply dB).apply dC)
      dD dF dG aD aF aG aE eMsg hg hD hE hF hG
    exact ⟨h.1, h.2.1, h.2.2.1, h.2.2.2⟩
  · intro stubs s0 dA dB dC dD dE dG aA aB aC aD aE aG aF fMsg hA hB hC hg hD hE hF hG
    unfold runCore
    simp only [hA, hB, hC]
    have h := runRest_f_degrades stubs (((s0.apply dA).apply dB).apply dC)
      dD dE dG aD aE aG aF fMsg hg hD hE hF hG
    exact ⟨h.1, h.2.1, h.2.2.1, h.2.2.2⟩

/-- Witness for claim C3: forcing node E to time out on every attempt on
the deterministic stubs still yields a successful run carrying the
default financial payload, the warning and a succeeded node G. -/
theorem tolerated_failure_degrades_witness :
    (runCore stubsEFails startState).success = true ∧
    (runCore stubsEFails startState).state.financialAnalysis =
      some defaultFinancialAnalysis ∧
    financialFallbackWarning ∈ (runCore stubsEFails startState).state.warnings ∧
    (runCore stubsEFails startState).statuses.g = .succeeded :=
  tolerated_failure_degrades.1 stubsEFails startState
    (stubDelta .a) (stubDelta .b) (stubDelta .c) (stubDelta .d) (stubDelta .f)
    (stubDelta .g) 0 0 0 0 0 0 2 "LLM call timed out"
    rfl rfl rfl (by decide) rfl (fun s => rfl) rfl (fun s => rfl)

/-- Claim C5: for every submitted profile, phase-1 `submitProfile` (the
operation behind the client's `/analyze` call) runs nodes A through C to
completion, persists the resulting `WorkflowState` under the session id
with a time-to-live, and returns that session id, the analysis summary
and exactly the top-3 ranked candidate careers. -/
theorem submitProfile_runs_a_to_c (stubs : Stubs) (store : SessionStore) (now : Nat)
    (profile : CareerProfile) (sid : String) (dA dB dC : PartialState) (aA aB aC : Nat)
    (hA : runNode stubs .a { profile := profile } = (Except.ok dA, aA))
    (hB : runNode stubs .b (WorkflowState.apply { profile := profile } dA) =
      (Except.ok dB, aB))
    (hC : runNode stubs .c ((WorkflowState.apply { profile := profile } dA).apply dB) =
      (Except.ok dC, aC)) :
    submitProfile stubs store now profile sid =
      Except.ok
        ((sid, ⟨((WorkflowState.apply { profile := profile } dA).apply dB).apply dC,
            now + sessionTTL⟩) :: store,
         ⟨sid,
          (((((WorkflowState.apply { profile := profile } dA).apply dB).apply
              dC).careerFits.getD []).take 3),
          analysisSummaryOf
            (((WorkflowState.apply { profile := profile } dA).apply dB).apply dC)⟩) ∧
    ((sid, (⟨((WorkflowState.apply { profile := profile } dA).apply dB).apply dC,
        now + sessionTTL⟩ : StoredSession)) :: store).lookup sid =
      some ⟨((WorkflowState.apply { profile := profile } dA).apply dB).apply dC,
        now + sessionTTL⟩ ∧
    (3 ≤ ((((WorkflowState.apply { profile := profile } dA).apply dB).apply
        dC).careerFits.getD []).length →
      (((((WorkflowState.apply { profile := profile } dA).apply dB).apply
          dC).careerFits.getD []).take 3).length = 3) := by
  refine ⟨?_, ?_, ?_⟩
  · unfold submitProfile
    simp only [hA, hB, hC]
  · simp [List.lookup]
  · intro h3
    simp only [List.length_take]
    omega

/-- Witness for claim C5: on the deterministic stubs, phase 1 persists
the committed state and returns exactly three ranked candidates. -/
theorem submitProfile_runs_a_to_c_witness :
    ((("sess_1", (⟨((WorkflowState.apply { profile := emptyProfile } (stubDelta .a)).apply
        (stubDelta .b)).apply (stubDelta .c), 0 + sessionTTL⟩ : StoredSession)) ::
        ([] : SessionStore)).lookup "sess_1" =
      some ⟨((WorkflowState.apply { profile := emptyProfile } (stubDelta .a)).apply
        (stubDelta .b)).apply (stubDelta .c), 0 + sessionTTL⟩ ∧
    (((((WorkflowState.apply { profile := emptyProfile } (stubDelta .a)).apply
        (stubDelta .b)).apply (stubDelta .c)).careerFits.getD []).take 3).length = 3 :
      Prop) := by
  have h := submitProfile_runs_a_to_c okStubs [] 0 emptyProfile "sess_1"
    (stubDelta .a) (stubDelta .b) (stubDelta .c) 0 0 0 rfl rfl rfl
  exact ⟨h.2.1, h.2.2 (by decide)⟩

/-- `rankOf` at positive fuel is the successor of the maximal dependency
rank. -/
theorem rankOf_succ (g : AgentGraph) (fuel : Nat) (n : NodeId) :
    rankOf g (fuel + 1) n = (maxRanks g fuel (depsOf g n)).map fun a => a + 1 := by
  have hfold : ∀ l : List NodeId,
      maxRanks g fuel l =
        l.foldr
          (fun m acc =>
            match rankOf g fuel m, acc with
            | some rm, some a => some (Nat.max rm a)
            | _, _ => none)
          (some 0) := by
    intro l
    induction l with
    | nil => rfl
    | cons m rest ih => simp only [maxRanks, List.foldr_cons, ih]
  rw [hfold]
  rfl

/-- More fuel never loses a computed rank. -/
theorem rankOf_mono (g : AgentGraph) :
    ∀ (fuel : Nat) (n : NodeId) (r : Nat),
      rankOf g fuel n = some r → rankOf g (fuel + 1) n = some r := by
  intro fuel
  induction fuel with
  | zero => intro n r h; simp [rankOf] at h
  | succ fuel ih =>
    have hmax : ∀ (l : List NodeId) (a : Nat),
        maxRanks g fuel l = some a → maxRanks g (fuel + 1) l = some a := by
      intro l
      induction l with
      | nil => intro a h; simpa [maxRanks] using h
      | cons m rest ihl =>
        intro a h
        simp only [maxRanks] at h ⊢
        rcases hm : rankOf g fuel m with _ | rm
        · rw [hm] at h; simp at h
        · rcases hrest : maxRanks g fuel rest with _ | b
          · rw [hm, hrest] at h; simp at h
          · rw [hm, hrest] at h
            rw [ih m rm hm, ihl b hrest]
            exact h
    intro n r h
    rw [rankOf_succ] at h ⊢
    rcases Option.map_eq_some'.mp h with ⟨a, ha, hr⟩
    rw [hmax (depsOf g n) a ha]
    simp [hr]

/-- Every member of a ranked dependency list is ranked and bounded by
the maximum. -/
theorem maxRanks_bound (g : AgentGraph) (fuel : Nat) :
    ∀ (l : List NodeId) (a : Nat), maxRanks g fuel l = some a →
      ∀ m ∈ l, ∃ rm, rankOf g fuel m = some rm ∧ rm ≤ a := by
  intro l
  induction l with
  | nil => intro a _ m hm; simp at hm
  | cons x rest ih =>
    intro a h m hm
    simp only [maxRanks] at h
    rcases hx : rankOf g fuel x with _ | rx
    · rw [hx] at h; simp at h
    · rcases hrest : maxRanks g fuel rest with _ | b
      · rw [hx, hrest] at h; simp at h
      · rw [hx, hrest] at h
        have ha : a = Nat.max rx b := by
          cases h
          rfl
        rcases List.mem_cons.mp hm with rfl | hm2
        · exact ⟨rx, hx, ha ▸ Nat.le_max_left rx b⟩
        · obtain ⟨rm, hrm, hle⟩ := ih b hrest m hm2
          exact ⟨rm, hrm, ha ▸ hle.trans (Nat.le_max_right rx b)⟩

/-- A dependency edge strictly decreases the validated rank. -/
theorem rank_lt_of_depEdge {g : AgentGraph} {m n : NodeId} {rn : Nat}
    (he : depEdge g m n) (hn : rankOf g (rankFuel g) n = some rn) :
    ∃ rm, rankOf g (rankFuel g) m = some rm ∧ rm < rn := by
  have hr : rankOf g (g.length + 1) n = some rn := hn
  rw [rankOf_succ] at hr
  rcases Option.map_eq_some'.mp hr with ⟨a, ha, hrn⟩
  obtain ⟨rm, hrm, hle⟩ := maxRanks_bound g g.length (depsOf g n) a ha m he
  refine ⟨rm, rankOf_mono g g.length m rm hrm, ?_⟩
  omega

/-- A dependency path strictly decreases the validated rank. -/
theorem rank_lt_of_transGen {g : AgentGraph} {x y : NodeId}
    (h : Relation.TransGen (depEdge g) x y) :
    ∀ ry, rankOf g (rankFuel g) y = some ry →
      ∃ rx, rankOf g (rankFuel g) x = some rx ∧ rx < ry := by
  induction h with
  | single e => intro ry hy; exact rank_lt_of_depEdge e hy
  | tail _ e ih =>
    intro ry hy
    obtain ⟨rm, hm, hlt1⟩ := rank_lt_of_depEdge e hy
    obtain ⟨rx, hx, hlt2⟩ := ih rm hm
    exact ⟨rx, hx, hlt2.trans hlt1⟩

/-- Bounded reachability only reports genuine dependency paths. -/
theorem transGen_of_reachB {g : AgentGraph} :
    ∀ (fuel : Nat) (x y : NodeId), reachB g fuel x y = true →
      Relation.TransGen (depEdge g) x y := by
  intro fuel
  induction fuel with
  | zero =>
    intro x y h
    simp only [reachB] at h
    exact Relation.TransGen.single (of_decide_eq_true h)
  | succ fuel ih =>
    intro x y h
    simp only [reachB, Bool.or_eq_true] at h
    rcases h with h1 | h2
    · exact Relation.TransGen.single (of_decide_eq_true h1)
    · obtain ⟨m, hm, hr⟩ := List.any_eq_true.mp h2
      exact (ih x m hr).tail hm

/-- The target of a dependency edge has a declaration in the graph. -/
theorem target_declared_of_depEdge {g : AgentGraph} {m n : NodeId}
    (h : depEdge g m n) : ∃ ns, ns ∈ g ∧ ns.id = n := by
  unfold depEdge depsOf at h
  rcases hf : g.find? (fun ns => decide (ns.id = n)) with _ | ns
  · rw [hf] at h; simp at h
  · have hp := List.find?_some hf
    simp only [decide_eq_true_eq] at hp
    exact ⟨ns, List.mem_of_find?_eq_some hf, hp⟩

/-- Claim C7: graph construction is eagerly validated — a graph accepted
by `mkGraph` has no dependency cycle, and any two distinct declared
nodes with overlapping `writes` sets are ordered by a dependency path;
consequently no executed (validated) graph has either defect. -/
theorem graph_validation_eager (g : AgentGraph) (vg : ValidatedGraph)
    (h : mkGraph g = some vg) :
    (∀ n : NodeId, ¬ Relation.TransGen (depEdge g) n n) ∧
    (∀ n1, n1 ∈ g → ∀ n2, n2 ∈ g → n1.id ≠ n2.id → writesOverlap n1 n2 = true →
       Relation.TransGen (depEdge g) n1.id n2.id ∨
       Relation.TransGen (depEdge g) n2.id n1.id) := by
  have hval : validateGraph g = true := by
    by_cases hv : validateGraph g = true
    · exact hv
    · simp [mkGraph, hv] at h
  have hpair : allRanked g = true ∧ disjointWritesOk g = true := by
    simpa only [validateGraph, Bool.and_eq_true] using hval
  have hranked : allRanked g = true := hpair.1
  have hdisj : disjointWritesOk g = true := hpair.2
  constructor
  · intro n hcyc
    have hspec : ∃ ns, ns ∈ g ∧ ns.id = n := by
      cases hcyc with
      | single e => exact target_declared_of_depEdge e
      | tail _ e => exact target_declared_of_depEdge e
    obtain ⟨ns, hmem, hid⟩ := hspec
    have hsome := List.all_eq_true.mp hranked ns hmem
    rw [hid] at hsome
    obtain ⟨rn, hrn⟩ := Option.isSome_iff_exists.mp hsome
    obtain ⟨rx, hrx, hlt⟩ := rank_lt_of_transGen hcyc rn hrn
    rw [hrn] at hrx
    cases hrx
    exact absurd hlt (lt_irrefl rn)
  · intro n1 h1 n2 h2 hne hov
    have hb := List.all_eq_true.mp (List.all_eq_true.mp hdisj n1 h1) n2 h2
    simp only [Bool.or_eq_true, decide_eq_true_eq] at hb
    rcases hb with (hid | hnov) | hord
    · exact absurd hid hne
    · rw [hov] at hnov
      simp at hnov
    · unfold orderedB at hord
      simp only [Bool.or_eq_true] at hord
      rcases hord with hr | hr
      · exact Or.inl (transGen_of_reachB (rankFuel g) n1.id n2.id hr)
      · exact Or.inr (transGen_of_reachB (rankFuel g) n2.id n1.id hr)

/-- The career graph passes construction-time validation. -/
def careerGraphValidated : ValidatedGraph :=
  ⟨careerGraph, by decide⟩

/-- A two-node graph whose nodes share a written field but are ordered
by a dependency edge, so validation accepts it. -/
def orderedOverlapGraph : AgentGraph :=
  [ { id := .a, reads := [], writes := [.semanticSummary], dependsOn := [] },
    { id := .b, reads := [.semanticSummary], writes := [.semanticSummary],
      dependsOn := [.a] } ]

/-- The ordered-overlap graph passes construction-time validation. -/
def orderedOverlapGraphValidated : ValidatedGraph :=
  ⟨orderedOverlapGraph, by decide⟩

/-- Witness for claim C7 at concrete graphs: the accepted career graph
is cycle-free at node G, and in the accepted ordered-overlap graph the
two overlapping-writes nodes are ordered by a dependency path. -/
theorem graph_validation_eager_witness :
    (¬ Relation.TransGen (depEdge careerGraph) NodeId.g NodeId.g) ∧
    (Relation.TransGen (depEdge orderedOverlapGraph) NodeId.a NodeId.b ∨
     Relation.TransGen (depEdge orderedOverlapGraph) NodeId.b NodeId.a) := by
  have h1 := graph_validation_eager careerGraph careerGraphValidated rfl
  have h2 := graph_validation_eager orderedOverlapGraph orderedOverlapGraphValidated rfl
  refine ⟨h1.1 NodeId.g, ?_⟩
  exact h2.2 ⟨.a, [], [.semanticSummary], []⟩ (by simp [orderedOverlapGraph])
    ⟨.b, [.semanticSummary], [.semanticSummary], [.a]⟩ (by simp [orderedOverlapGraph])
    (by decide) (by decide)
